import Mathlib

/-!
# ArangoDb output plugin (`plugins/outputs/arangodb/arangodb.go`)

A shallow embedding of the plugin's `Connect` and `Write` methods.  The
ArangoDB Go driver is an external library; it is embedded as a record of
state-passing functions (`Driver σ`), and the theorems about which calls are
issued and which error is returned hold for an arbitrary behaviour of the
driver.  An in-memory store (`MemStore`, `memDriver`) with scripted failures
gives a concrete driver on which the methods can be evaluated; the theorems
about what exists in the store after `Connect` are stated on it.

Every run records the driver calls it issues, in order, together with the
error each call returned (`Event`), and the lines written with `Log.Errorf`.
-/

namespace ArangoOutput

/-! ## Data model -/

/-- A Go `error` value, identified by the text `Error()` returns. -/
structure Err where
  msg : String
deriving DecidableEq, Repr

/-- The result `(v, err)` of a driver call: `err == nil` with a value, or
`err != nil`. -/
inductive Res (α : Type) where
  | ok (v : α)
  | error (e : Err)
deriving DecidableEq, Repr

/-- The type `telegraf.ValueType`, an integer type whose named values start
at 1; its zero value has no name. -/
structure ValueType where
  val : Nat
deriving DecidableEq, Repr

/-- The value `telegraf.Counter`. -/
def ValueType.Counter : ValueType := ⟨1⟩

/-- The value `telegraf.Gauge`. -/
def ValueType.Gauge : ValueType := ⟨2⟩

/-- The value `telegraf.Untyped`. -/
def ValueType.Untyped : ValueType := ⟨3⟩

/-- The value `telegraf.Summary`. -/
def ValueType.Summary : ValueType := ⟨4⟩

/-- The value `telegraf.Histogram`. -/
def ValueType.Histogram : ValueType := ⟨5⟩

/-- A value of a metric field (`interface{}` in the source); a float is kept
as its bit pattern. -/
inductive FieldValue where
  | int (v : Int)
  | uint (v : Nat)
  | float (bits : Nat)
  | str (v : String)
  | bool (v : Bool)
deriving DecidableEq, Repr

/-- A `telegraf.Metric`, seen through the five accessors `Write` calls:
`Name()`, `Tags()`, `Fields()`, `Time()` and `Type()`. -/
structure Metric where
  Name : String
  Tags : List (String × String)
  Fields : List (String × FieldValue)
  Time : Int
  Type_ : ValueType
deriving DecidableEq, Repr

/-- The struct `Entry` (source lines 14-22); the field `Type` is spelled
`Type_`. -/
structure Entry where
  Name : String
  Tags : List (String × String)
  Fields : List (String × FieldValue)
  Time : Int
  Type_ : ValueType
  aggregate : Bool
deriving DecidableEq, Repr

/-- The zero value `Entry{}`. -/
def Entry.zero : Entry :=
  { Name := "", Tags := [], Fields := [], Time := 0, Type_ := ⟨0⟩, aggregate := false }

namespace driver

/-- A `driver.Connection` handle. -/
structure Connection where
  endpoints : List String
deriving DecidableEq, Repr

/-- A `driver.Client` handle. -/
structure Client where
  conn : Connection
  user : String
  password : String
deriving DecidableEq, Repr

/-- A `driver.Database` handle. -/
structure Database where
  name : String
deriving DecidableEq, Repr

/-- A `driver.Collection` handle. -/
structure Collection where
  db : String
  name : String
deriving DecidableEq, Repr

end driver

/-- The struct `ArangoDb` (source lines 24-35).  `Log` is embedded as the
list of logged lines a run returns; `serializer` is stored by
`SetSerializer` and read nowhere, and is left out.  `db` is `none` while the
field holds the nil interface. -/
structure ArangoDb where
  Url : String
  Username : String
  Password : String
  Database : String
  Collection : String
  UseBatchFormat : Bool
  db : Option driver.Database
deriving DecidableEq, Repr

/-! ## The driver interface -/

/-- The operations of the ArangoDB driver the plugin calls, over a store
state `σ`.  Each takes the state before the call and returns the call's
result with the state after it. -/
structure Driver (σ : Type) where
  NewConnection : List String → σ → Res driver.Connection × σ
  NewClient : driver.Connection → String → String → σ → Res driver.Client × σ
  DatabaseExists : driver.Client → String → σ → Res Bool × σ
  CreateDatabase : driver.Client → String → σ → Res driver.Database × σ
  Database : driver.Client → String → σ → Res driver.Database × σ
  CollectionExists : driver.Database → String → σ → Res Bool × σ
  CreateCollection : driver.Database → String → σ → Res driver.Collection × σ
  Collection : driver.Database → String → σ → Res driver.Collection × σ
  CreateDocument : driver.Collection → Entry → σ → Res Unit × σ
  CreateDocuments : driver.Collection → List Entry → σ → Res Unit × σ

/-- A driver call, with its arguments. -/
inductive Call where
  | NewConnection (endpoints : List String)
  | NewClient (conn : driver.Connection) (user password : String)
  | DatabaseExists (name : String)
  | CreateDatabase (name : String)
  | Database (name : String)
  | CollectionExists (db : driver.Database) (name : String)
  | CreateCollection (db : driver.Database) (name : String)
  | Collection (db : driver.Database) (name : String)
  | CreateDocument (col : driver.Collection) (entry : Entry)
  | CreateDocuments (col : driver.Collection) (entries : List Entry)
deriving DecidableEq, Repr

/-- A driver call that was issued, with the error it returned (`none` for
`err == nil`). -/
structure Event where
  call : Call
  err : Option Err
deriving DecidableEq, Repr

/-- The error component of a driver result. -/
def Res.err {α : Type} : Res α → Option Err
  | Res.ok _ => none
  | Res.error e => some e

/-- How a method call ends: it returns an `error` value (`none` for nil), or
it panics on a method call through a nil interface. -/
inductive Outcome where
  | returned (err : Option Err)
  | panicked
deriving DecidableEq, Repr

/-- What a run of `Connect` or `Write` leaves behind. -/
structure Run (σ : Type) where
  out : Outcome
  sink : ArangoDb
  store : σ
  trace : List Event
  log : List String

/-! ## `Write` (source lines 133-180) -/

/-- The `Entry` the loop bodies build from a metric (lines 148-153 and
165-170). -/
def entryOf (m : Metric) : Entry :=
  { Entry.zero with
    Name := m.Name, Fields := m.Fields, Tags := m.Tags, Type_ := m.Type_, Time := m.Time }

/-- The batch loop (lines 147-156): `entries[i] = entry` for the metric at
index `i`, from index `i` on. -/
def fillEntries : List Metric → Nat → List Entry → List Entry
  | [], _, entries => entries
  | m :: rest, i, entries => fillEntries rest (i + 1) (entries.set i (entryOf m))

/-- The slice handed to `CreateDocuments`: `make([]Entry, len(metrics))`
filled by the batch loop. -/
def batchEntries (metrics : List Metric) : List Entry :=
  fillEntries metrics 0 (List.replicate metrics.length Entry.zero)

/-- The per-document loop (lines 164-176), from store state `s`.  The `err`
assigned inside the body is declared there with `:=`; it is logged when
non-nil and goes out of scope at the end of the iteration.  Returns the
store, the events and the log lines of the loop. -/
def writeEach {σ : Type} (d : Driver σ) (col : driver.Collection) :
    List Metric → σ → σ × List Event × List String
  | [], s => (s, [], [])
  | m :: rest, s =>
    let r := d.CreateDocument col (entryOf m) s
    let tl := writeEach d col rest r.2
    (tl.1, ⟨Call.CreateDocument col (entryOf m), r.1.err⟩ :: tl.2.1,
      (match r.1 with
        | Res.ok _ => []
        | Res.error e => ["Could not write entry: " ++ e.msg]) ++ tl.2.2)

/-- The method `Write`.  The function-level `err` is assigned once, by the
collection lookup of line 137; line 179 returns it. -/
def Write {σ : Type} (d : Driver σ) (a : ArangoDb) (metrics : List Metric) (s : σ) : Run σ :=
  match a.db with
  | none => ⟨Outcome.panicked, a, s, [], []⟩
  | some db =>
    match d.Collection db a.Collection s with
    | (Res.error e, s1) =>
      ⟨Outcome.returned (some e), a, s1, [⟨Call.Collection db a.Collection, some e⟩],
        ["Could open collection: " ++ e.msg]⟩
    | (Res.ok col, s1) =>
      if a.UseBatchFormat then
        match d.CreateDocuments col (batchEntries metrics) s1 with
        | (Res.error e, s2) =>
          ⟨Outcome.returned (some e), a, s2,
            [⟨Call.Collection db a.Collection, none⟩,
             ⟨Call.CreateDocuments col (batchEntries metrics), some e⟩],
            ["Could not write entries: " ++ e.msg]⟩
        | (Res.ok _, s2) =>
          ⟨Outcome.returned none, a, s2,
            [⟨Call.Collection db a.Collection, none⟩,
             ⟨Call.CreateDocuments col (batchEntries metrics), none⟩], []⟩
      else
        let r := writeEach d col metrics s1
        ⟨Outcome.returned none, a, r.1, ⟨Call.Collection db a.Collection, none⟩ :: r.2.1, r.2.2⟩

/-! ## `Connect` (source lines 60-119) -/

/-- Lines 103-118 of `Connect`: the collection-existence query and the
creation of the collection, with `a.db` already assigned. -/
def connectCollection {σ : Type} (d : Driver σ) (a : ArangoDb) (db : driver.Database)
    (s : σ) (trace : List Event) : Run σ :=
  match d.CollectionExists db a.Collection s with
  | (Res.error e, s1) =>
    ⟨Outcome.returned (some e), a, s1,
      trace ++ [⟨Call.CollectionExists db a.Collection, some e⟩],
      ["Failed to check if collection exists: " ++ e.msg]⟩
  | (Res.ok true, s1) =>
    ⟨Outcome.returned none, a, s1, trace ++ [⟨Call.CollectionExists db a.Collection, none⟩], []⟩
  | (Res.ok false, s1) =>
    match d.CreateCollection db a.Collection s1 with
    | (Res.error e, s2) =>
      ⟨Outcome.returned (some e), a, s2,
        trace ++ [⟨Call.CollectionExists db a.Collection, none⟩,
                  ⟨Call.CreateCollection db a.Collection, some e⟩],
        ["Failed to create collection: " ++ e.msg]⟩
    | (Res.ok _, s2) =>
      ⟨Outcome.returned none, a, s2,
        trace ++ [⟨Call.CollectionExists db a.Collection, none⟩,
                  ⟨Call.CreateCollection db a.Collection, none⟩], []⟩

/-- Lines 82-101 of `Connect`: create or open the database, return on an
error, otherwise assign `a.db` and go on with the collection.  The second
`if err != nil` (lines 98-101) tests the same `err` again and is never
taken. -/
def connectDatabase {σ : Type} (d : Driver σ) (a : ArangoDb) (c : driver.Client)
    (exists_ : Bool) (s : σ) (trace : List Event) : Run σ :=
  let call := if exists_ = false then Call.CreateDatabase a.Database else Call.Database a.Database
  match (if exists_ = false then d.CreateDatabase c a.Database s else d.Database c a.Database s) with
  | (Res.error e, s1) =>
    ⟨Outcome.returned (some e), a, s1, trace ++ [⟨call, some e⟩],
      ["Could not connect to database: " ++ e.msg]⟩
  | (Res.ok db, s1) =>
    connectCollection d { a with db := some db } db s1 (trace ++ [⟨call, none⟩])

/-- The method `Connect`.  The `err` of `driver.NewClient` (line 70) is
overwritten by line 75 without being tested; the driver returns a nil client
together with an error, and the call `c.DatabaseExists` through it panics. -/
def Connect {σ : Type} (d : Driver σ) (a : ArangoDb) (s : σ) : Run σ :=
  match d.NewConnection [a.Url] s with
  | (Res.error e, s1) =>
    ⟨Outcome.returned (some e), a, s1, [⟨Call.NewConnection [a.Url], some e⟩],
      ["Failed to create HTTP connection: " ++ e.msg]⟩
  | (Res.ok conn, s1) =>
    match d.NewClient conn a.Username a.Password s1 with
    | (Res.error e, s2) =>
      ⟨Outcome.panicked, a, s2,
        [⟨Call.NewConnection [a.Url], none⟩,
         ⟨Call.NewClient conn a.Username a.Password, some e⟩], []⟩
    | (Res.ok c, s2) =>
      match d.DatabaseExists c a.Database s2 with
      | (Res.error e, s3) =>
        ⟨Outcome.returned (some e), a, s3,
          [⟨Call.NewConnection [a.Url], none⟩,
           ⟨Call.NewClient conn a.Username a.Password, none⟩,
           ⟨Call.DatabaseExists a.Database, some e⟩],
          ["Could not check if database '" ++ a.Database ++ "' exists: " ++ e.msg]⟩
      | (Res.ok exists_, s3) =>
        connectDatabase d a c exists_ s3
          [⟨Call.NewConnection [a.Url], none⟩,
           ⟨Call.NewClient conn a.Username a.Password, none⟩,
           ⟨Call.DatabaseExists a.Database, none⟩]

/-- The method `Close` (lines 121-123). -/
def Close (_a : ArangoDb) : Option Err := none

/-! ## An in-memory store -/

/-- A document store held in memory: the names of its databases, its
collections as (database, collection) pairs, the documents written so far,
and a script of injected failures, one slot per driver call still to come
(`some e` makes that call fail with `e` and leave the contents alone). -/
structure MemStore where
  dbs : List String
  cols : List (String × String)
  docs : List (String × String × Entry)
  faults : List (Option Err)
deriving DecidableEq, Repr

/-- Consume the next slot of the failure script. -/
def MemStore.next (s : MemStore) : Option Err × MemStore :=
  match s.faults with
  | [] => (none, s)
  | f :: rest => (f, { s with faults := rest })

/-- Run one call: fail with the injected error if the script has one for it,
otherwise run `body` on the store. -/
def MemStore.call {α : Type} (s : MemStore) (body : MemStore → Res α × MemStore) :
    Res α × MemStore :=
  match s.next with
  | (some e, s1) => (Res.error e, s1)
  | (none, s1) => body s1

/-- The driver of the in-memory store.  Creating what exists and opening or
writing to what does not exist fail, as they do on the server; the existence
queries answer `false` for what is missing. -/
def memDriver : Driver MemStore where
  NewConnection := fun endpoints s => s.call fun s1 => (Res.ok ⟨endpoints⟩, s1)
  NewClient := fun conn user password s => s.call fun s1 => (Res.ok ⟨conn, user, password⟩, s1)
  DatabaseExists := fun _ name s => s.call fun s1 => (Res.ok (decide (name ∈ s1.dbs)), s1)
  CreateDatabase := fun _ name s => s.call fun s1 =>
    if name ∈ s1.dbs then (Res.error ⟨"duplicate database name"⟩, s1)
    else (Res.ok ⟨name⟩, { s1 with dbs := s1.dbs ++ [name] })
  Database := fun _ name s => s.call fun s1 =>
    if name ∈ s1.dbs then (Res.ok ⟨name⟩, s1)
    else (Res.error ⟨"database not found"⟩, s1)
  CollectionExists := fun db name s => s.call fun s1 =>
    if db.name ∈ s1.dbs then (Res.ok (decide ((db.name, name) ∈ s1.cols)), s1)
    else (Res.ok false, s1)
  CreateCollection := fun db name s => s.call fun s1 =>
    if db.name ∈ s1.dbs then
      if (db.name, name) ∈ s1.cols then (Res.error ⟨"duplicate collection name"⟩, s1)
      else (Res.ok ⟨db.name, name⟩, { s1 with cols := s1.cols ++ [(db.name, name)] })
    else (Res.error ⟨"database not found"⟩, s1)
  Collection := fun db name s => s.call fun s1 =>
    if (db.name, name) ∈ s1.cols then (Res.ok ⟨db.name, name⟩, s1)
    else (Res.error ⟨"collection not found"⟩, s1)
  CreateDocument := fun col entry s => s.call fun s1 =>
    if (col.db, col.name) ∈ s1.cols then
      (Res.ok (), { s1 with docs := s1.docs ++ [(col.db, col.name, entry)] })
    else (Res.error ⟨"collection not found"⟩, s1)
  CreateDocuments := fun col entries s => s.call fun s1 =>
    if (col.db, col.name) ∈ s1.cols then
      (Res.ok (), { s1 with docs := s1.docs ++ entries.map fun e => (col.db, col.name, e) })
    else (Res.error ⟨"collection not found"⟩, s1)

/-! ## Sample data -/

/-- A sink configured for database `logdb` and collection `log_data`, not
yet connected. -/
def sampleSink (batch : Bool) : ArangoDb :=
  { Url := "http://192.168.1.100:8529", Username := "user", Password := "password",
    Database := "logdb", Collection := "log_data", UseBatchFormat := batch, db := none }

/-- The sample sink after a successful `Connect`. -/
def readySink (batch : Bool) : ArangoDb :=
  { sampleSink batch with db := some ⟨"logdb"⟩ }

/-- A store that holds `logdb` with `log_data`, with the failure script
`faults`. -/
def readyStore (faults : List (Option Err)) : MemStore :=
  { dbs := ["logdb"], cols := [("logdb", "log_data")], docs := [], faults := faults }

/-- An empty store with the failure script `faults`. -/
def emptyStore (faults : List (Option Err)) : MemStore :=
  { dbs := [], cols := [], docs := [], faults := faults }

/-- A gauge metric `cpu` with one tag and one field. -/
def cpuMetric (t : Int) : Metric :=
  { Name := "cpu", Tags := [("host", "a")], Fields := [("usage", FieldValue.float 4602678819172646912)],
    Time := t, Type_ := ValueType.Gauge }

/-- The injected error of the examples. -/
def boom : Err := ⟨"boom"⟩

/-! ## Reading a trace -/

/-- The calls of a trace, in order. -/
def calls (t : List Event) : List Call := t.map Event.call

/-- The entries of the `CreateDocument` calls of a list of calls, in order. -/
def createDocumentCalls : List Call → List Entry
  | [] => []
  | Call.CreateDocument _ e :: rest => e :: createDocumentCalls rest
  | _ :: rest => createDocumentCalls rest

/-- The entry lists of the `CreateDocuments` calls of a list of calls, in
order. -/
def createDocumentsCalls : List Call → List (List Entry)
  | [] => []
  | Call.CreateDocuments _ es :: rest => es :: createDocumentsCalls rest
  | _ :: rest => createDocumentsCalls rest

/-- The collection lookups (`Database.Collection`) of a list of calls. -/
def collectionCalls : List Call → List (driver.Database × String)
  | [] => []
  | Call.Collection db n :: rest => (db, n) :: collectionCalls rest
  | _ :: rest => collectionCalls rest

/-- The names of the `CreateDatabase` calls of a list of calls. -/
def createDatabaseCalls : List Call → List String
  | [] => []
  | Call.CreateDatabase n :: rest => n :: createDatabaseCalls rest
  | _ :: rest => createDatabaseCalls rest

/-- The names of the open-database (`Client.Database`) calls of a list of
calls. -/
def databaseCalls : List Call → List String
  | [] => []
  | Call.Database n :: rest => n :: databaseCalls rest
  | _ :: rest => databaseCalls rest

/-- The database handles and names of the `CreateCollection` calls of a list
of calls. -/
def createCollectionCalls : List Call → List (driver.Database × String)
  | [] => []
  | Call.CreateCollection db n :: rest => (db, n) :: createCollectionCalls rest
  | _ :: rest => createCollectionCalls rest

/-- Whether a call is the construction of the driver client
(`driver.NewClient`). -/
def Call.isNewClient : Call → Bool
  | Call.NewClient _ _ _ => true
  | _ => false

/-- The event a run stopped at: the last event of the trace. -/
def lastEvent (t : List Event) : Option Event := t.getLast?

/-! ## Sample runs -/

/-- Three metrics written one by one to a ready store whose second
`CreateDocument` call fails with `boom`. -/
def perDocumentRun : Run MemStore :=
  Write memDriver (readySink false) [cpuMetric 1, cpuMetric 2, cpuMetric 3]
    (readyStore [none, none, some boom, none])

/-- The empty metric sequence written in batch mode to a ready store. -/
def emptyBatchRun : Run MemStore :=
  Write memDriver (readySink true) [] (readyStore [])

/-- The empty metric sequence written in batch mode to a ready store whose
`CreateDocuments` call fails with `boom`. -/
def emptyBatchFailedRun : Run MemStore :=
  Write memDriver (readySink true) [] (readyStore [none, some boom])

/-- The empty metric sequence written one by one to a ready store. -/
def emptyPerDocumentRun : Run MemStore :=
  Write memDriver (readySink false) [] (readyStore [])

/-- `Connect` against a ready store whose `NewClient` call fails with
`boom`. -/
def clientFailedRun : Run MemStore :=
  Connect memDriver (sampleSink true) (readyStore [none, some boom])

/-- `Connect` against a ready store whose collection-existence query (the
fifth driver call) fails with `boom`. -/
def collectionQueryFailedRun : Run MemStore :=
  Connect memDriver (sampleSink true) (readyStore [none, none, none, none, some boom])

/-- `Connect` against an empty store, every call succeeding. -/
def firstConnectRun : Run MemStore :=
  Connect memDriver (sampleSink true) (emptyStore [])

/-! ## The loops of `Write` -/

theorem fillEntries_append (ms : List Metric) :
    ∀ (pre post : List Entry), post.length = ms.length →
      fillEntries ms pre.length (pre ++ post) = pre ++ ms.map entryOf := by
  induction ms with
  | nil =>
    intro pre post h
    have : post = [] := List.length_eq_zero.mp h
    simp [fillEntries, this]
  | cons m rest ih =>
    intro pre post h
    cases post with
    | nil => simp at h
    | cons p post =>
      have hlen : post.length = rest.length := by simpa using h
      have hset : (pre ++ p :: post).set pre.length (entryOf m) = (pre ++ [entryOf m]) ++ post := by
        simp
      have := ih (pre ++ [entryOf m]) post hlen
      simp only [List.length_append, List.length_singleton] at this
      simp only [fillEntries, hset, this]
      simp

theorem batchEntries_eq (metrics : List Metric) : batchEntries metrics = metrics.map entryOf := by
  have := fillEntries_append metrics [] (List.replicate metrics.length Entry.zero) (by simp)
  simpa [batchEntries] using this

theorem writeEach_calls {σ : Type} (d : Driver σ) (col : driver.Collection) (ms : List Metric) :
    ∀ s, calls (writeEach d col ms s).2.1 = ms.map fun m => Call.CreateDocument col (entryOf m) := by
  induction ms with
  | nil => intro s; rfl
  | cons m rest ih =>
    intro s
    simp only [writeEach, calls, List.map_cons]
    exact congrArg _ (ih _)

/-! ## Runs of `Write` -/

theorem Write_lookup_failed {σ : Type} (d : Driver σ) (a : ArangoDb) (metrics : List Metric) (s : σ)
    (db : driver.Database) (e : Err) (hdb : a.db = some db)
    (hcol : (d.Collection db a.Collection s).1 = Res.error e) :
    (Write d a metrics s).trace = [⟨Call.Collection db a.Collection, some e⟩] ∧
      (Write d a metrics s).out = Outcome.returned (some e) := by
  simp only [Write, hdb]
  rcases hc : d.Collection db a.Collection s with ⟨r, s1⟩
  rw [hc] at hcol
  simp only at hcol
  subst hcol
  exact ⟨rfl, rfl⟩

theorem Write_batch_run {σ : Type} (d : Driver σ) (a : ArangoDb) (metrics : List Metric) (s : σ)
    (db : driver.Database) (col : driver.Collection) (hdb : a.db = some db)
    (hcol : (d.Collection db a.Collection s).1 = Res.ok col) (hmode : a.UseBatchFormat = true) :
    (Write d a metrics s).trace =
        [⟨Call.Collection db a.Collection, none⟩,
         ⟨Call.CreateDocuments col (batchEntries metrics),
          (d.CreateDocuments col (batchEntries metrics) (d.Collection db a.Collection s).2).1.err⟩] ∧
      (Write d a metrics s).out =
        Outcome.returned
          (d.CreateDocuments col (batchEntries metrics) (d.Collection db a.Collection s).2).1.err := by
  simp only [Write, hdb]
  rcases hc : d.Collection db a.Collection s with ⟨r, s1⟩
  rw [hc] at hcol
  simp only at hcol
  subst hcol
  simp only [hmode, if_true]
  rcases hd : d.CreateDocuments col (batchEntries metrics) s1 with ⟨r2, s2⟩
  cases r2 <;> exact ⟨rfl, rfl⟩

theorem Write_each_run {σ : Type} (d : Driver σ) (a : ArangoDb) (metrics : List Metric) (s : σ)
    (db : driver.Database) (col : driver.Collection) (hdb : a.db = some db)
    (hcol : (d.Collection db a.Collection s).1 = Res.ok col) (hmode : a.UseBatchFormat = false) :
    (Write d a metrics s).trace =
        ⟨Call.Collection db a.Collection, none⟩ ::
          (writeEach d col metrics (d.Collection db a.Collection s).2).2.1 ∧
      (Write d a metrics s).out = Outcome.returned none := by
  simp only [Write, hdb]
  rcases hc : d.Collection db a.Collection s with ⟨r, s1⟩
  rw [hc] at hcol
  simp only at hcol
  subst hcol
  simp only [hmode]
  exact ⟨rfl, rfl⟩

theorem createDocumentCalls_map (col : driver.Collection) (es : List Entry) :
    createDocumentCalls (es.map fun e => Call.CreateDocument col e) = es := by
  induction es with
  | nil => rfl
  | cons e rest ih => simp [createDocumentCalls, ih]

theorem createDocumentsCalls_map (col : driver.Collection) (es : List Entry) :
    createDocumentsCalls (es.map fun e => Call.CreateDocument col e) = [] := by
  induction es with
  | nil => rfl
  | cons e rest ih => simp [createDocumentsCalls, ih]

theorem collectionCalls_map (col : driver.Collection) (es : List Entry) :
    collectionCalls (es.map fun e => Call.CreateDocument col e) = [] := by
  induction es with
  | nil => rfl
  | cons e rest ih => simp [collectionCalls, ih]

theorem writeEach_append {σ : Type} (d : Driver σ) (col : driver.Collection)
    (pre post : List Metric) :
    ∀ s, writeEach d col (pre ++ post) s =
      ((writeEach d col post (writeEach d col pre s).1).1,
        (writeEach d col pre s).2.1 ++ (writeEach d col post (writeEach d col pre s).1).2.1,
        (writeEach d col pre s).2.2 ++ (writeEach d col post (writeEach d col pre s).1).2.2) := by
  induction pre with
  | nil => intro s; simp [writeEach]
  | cons m rest ih =>
    intro s
    rw [List.cons_append]
    simp only [writeEach]
    rw [ih]
    simp only [List.cons_append, List.append_assoc]

theorem writeEach_trace_length {σ : Type} (d : Driver σ) (col : driver.Collection)
    (ms : List Metric) : ∀ s, (writeEach d col ms s).2.1.length = ms.length := by
  induction ms with
  | nil => intro s; rfl
  | cons m rest ih => intro s; simp [writeEach, ih]

theorem Write_each_store {σ : Type} (d : Driver σ) (a : ArangoDb) (metrics : List Metric) (s : σ)
    (db : driver.Database) (col : driver.Collection) (hdb : a.db = some db)
    (hcol : (d.Collection db a.Collection s).1 = Res.ok col) (hmode : a.UseBatchFormat = false) :
    (Write d a metrics s).store = (writeEach d col metrics (d.Collection db a.Collection s).2).1 := by
  simp only [Write, hdb]
  rcases hc : d.Collection db a.Collection s with ⟨r, s1⟩
  rw [hc] at hcol
  simp only at hcol
  subst hcol
  simp only [hmode]
  rfl

/-! ## `Write`: the claims -/

/-- C1: the per-document run of three metrics whose second `CreateDocument`
call fails issues the lookup and the three creates, logs the one failure, and
returns nil: the error of the failed call is not returned. -/
theorem write_per_document_failure_returns_nil :
    perDocumentRun.trace.map Event.err = [none, none, some boom, none] ∧
      createDocumentCalls (calls perDocumentRun.trace) =
        [entryOf (cpuMetric 1), entryOf (cpuMetric 2), entryOf (cpuMetric 3)] ∧
      perDocumentRun.log = ["Could not write entry: boom"] ∧
      perDocumentRun.out = Outcome.returned none := by
  decide

/-- C2: in batch mode, for every metric sequence for which the collection
handle opens, `Write` issues exactly one `CreateDocuments` call and no
`CreateDocument` call; the list passed to it has the length of the input, and
its i-th entry has the name, tags, fields, time and type of the i-th
metric. -/
theorem write_batch_one_bulk_call {σ : Type} (d : Driver σ) (a : ArangoDb)
    (metrics : List Metric) (s : σ) (db : driver.Database) (col : driver.Collection)
    (hmode : a.UseBatchFormat = true) (hdb : a.db = some db)
    (hcol : (d.Collection db a.Collection s).1 = Res.ok col) :
    ∃ es : List Entry,
      createDocumentsCalls (calls (Write d a metrics s).trace) = [es] ∧
      createDocumentCalls (calls (Write d a metrics s).trace) = [] ∧
      es.length = metrics.length ∧
      ∀ (i : Nat) (m : Metric), metrics[i]? = some m →
        ∃ e, es[i]? = some e ∧ e.Name = m.Name ∧ e.Tags = m.Tags ∧ e.Fields = m.Fields ∧
          e.Time = m.Time ∧ e.Type_ = m.Type_ := by
  refine ⟨batchEntries metrics, ?_, ?_, ?_, ?_⟩
  · rw [(Write_batch_run d a metrics s db col hdb hcol hmode).1]
    rfl
  · rw [(Write_batch_run d a metrics s db col hdb hcol hmode).1]
    rfl
  · simp [batchEntries_eq]
  · intro i m hm
    refine ⟨entryOf m, ?_, rfl, rfl, rfl, rfl, rfl⟩
    simp [batchEntries_eq, hm]

/-- C3: in per-document mode, for every sequence of N metrics for which the
collection handle opens, and whatever each call returns, `Write` issues the
lookup followed by exactly N `CreateDocument` calls and no `CreateDocuments`
call; the entry of the k-th call has the name, tags, fields, time and type of
the k-th metric; the k-th call is issued on the store the calls before it left
behind, its recorded result is what the driver returned there, whether an
error or not, and the store it leaves is the one the next call is issued on. -/
theorem write_per_document_all_attempted {σ : Type} (d : Driver σ) (a : ArangoDb)
    (metrics : List Metric) (s : σ) (db : driver.Database) (col : driver.Collection)
    (hmode : a.UseBatchFormat = false) (hdb : a.db = some db)
    (hcol : (d.Collection db a.Collection s).1 = Res.ok col) :
    calls (Write d a metrics s).trace =
        Call.Collection db a.Collection ::
          metrics.map (fun m => Call.CreateDocument col (entryOf m)) ∧
      createDocumentCalls (calls (Write d a metrics s).trace) = metrics.map entryOf ∧
      (createDocumentCalls (calls (Write d a metrics s).trace)).length = metrics.length ∧
      createDocumentsCalls (calls (Write d a metrics s).trace) = [] ∧
      (∀ (k : Nat) (m : Metric), metrics[k]? = some m →
        ∃ e, (createDocumentCalls (calls (Write d a metrics s).trace))[k]? = some e ∧
          e.Name = m.Name ∧ e.Tags = m.Tags ∧ e.Fields = m.Fields ∧ e.Time = m.Time ∧
          e.Type_ = m.Type_ ∧ e.aggregate = false) ∧
      (Write d a [] s).store = (d.Collection db a.Collection s).2 ∧
      ∀ (pre post : List Metric) (m : Metric), metrics = pre ++ m :: post →
        ∃ e, e.Name = m.Name ∧ e.Tags = m.Tags ∧ e.Fields = m.Fields ∧ e.Time = m.Time ∧
          e.Type_ = m.Type_ ∧ e.aggregate = false ∧
          (Write d a metrics s).trace[pre.length + 1]? =
            some ⟨Call.CreateDocument col e,
              (d.CreateDocument col e (Write d a pre s).store).1.err⟩ ∧
          (Write d a (pre ++ [m]) s).store =
            (d.CreateDocument col e (Write d a pre s).store).2 := by
  have hcalls : calls (Write d a metrics s).trace =
      Call.Collection db a.Collection ::
        (metrics.map entryOf).map (fun e => Call.CreateDocument col e) := by
    rw [(Write_each_run d a metrics s db col hdb hcol hmode).1]
    have := writeEach_calls d col metrics (d.Collection db a.Collection s).2
    simp only [calls, List.map_cons, List.map_map] at this ⊢
    rw [this]
    rfl
  have hentries : createDocumentCalls (calls (Write d a metrics s).trace) =
      metrics.map entryOf := by
    rw [hcalls]
    exact createDocumentCalls_map col _
  refine ⟨?_, hentries, ?_, ?_, ?_, ?_, ?_⟩
  · rw [hcalls, List.map_map]
    rfl
  · rw [hentries, List.length_map]
  · rw [hcalls]
    exact createDocumentsCalls_map col _
  · intro k m hm
    refine ⟨entryOf m, ?_, rfl, rfl, rfl, rfl, rfl, rfl⟩
    rw [hentries]
    simp [hm]
  · rw [Write_each_store d a [] s db col hdb hcol hmode]
    rfl
  · intro pre post m hsplit
    refine ⟨entryOf m, rfl, rfl, rfl, rfl, rfl, rfl, ?_, ?_⟩
    · rw [(Write_each_run d a metrics s db col hdb hcol hmode).1,
        Write_each_store d a pre s db col hdb hcol hmode, hsplit, writeEach_append]
      rw [List.getElem?_cons_succ,
        List.getElem?_append_right (by rw [writeEach_trace_length])]
      simp [writeEach_trace_length, writeEach]
    · rw [Write_each_store d a (pre ++ [m]) s db col hdb hcol hmode,
        Write_each_store d a pre s db col hdb hcol hmode, writeEach_append]
      rfl

/-- C5: in batch mode, for every metric sequence for which the collection
handle opens, the `CreateDocuments` call is the last driver call of `Write`,
and `Write` returns the error `e` exactly when that call returned `e`; it
returns nil when the call succeeded. -/
theorem write_batch_error_iff {σ : Type} (d : Driver σ) (a : ArangoDb)
    (metrics : List Metric) (s : σ) (db : driver.Database) (col : driver.Collection)
    (hmode : a.UseBatchFormat = true) (hdb : a.db = some db)
    (hcol : (d.Collection db a.Collection s).1 = Res.ok col) :
    (Write d a metrics s).trace =
        [⟨Call.Collection db a.Collection, none⟩,
         ⟨Call.CreateDocuments col (batchEntries metrics),
          (d.CreateDocuments col (batchEntries metrics) (d.Collection db a.Collection s).2).1.err⟩] ∧
      (∀ e : Err, (Write d a metrics s).out = Outcome.returned (some e) ↔
        (d.CreateDocuments col (batchEntries metrics) (d.Collection db a.Collection s).2).1 =
          Res.error e) ∧
      ((Write d a metrics s).out = Outcome.returned none ↔
        (d.CreateDocuments col (batchEntries metrics) (d.Collection db a.Collection s).2).1 =
          Res.ok ()) := by
  obtain ⟨htrace, hout⟩ := Write_batch_run d a metrics s db col hdb hcol hmode
  refine ⟨htrace, ?_, ?_⟩
  · intro e
    rw [hout]
    cases (d.CreateDocuments col (batchEntries metrics) (d.Collection db a.Collection s).2).1 <;>
      simp [Res.err]
  · rw [hout]
    cases (d.CreateDocuments col (batchEntries metrics) (d.Collection db a.Collection s).2).1 <;>
      simp [Res.err]

/-- C2 at a concrete input: two metrics written in batch mode to a ready
store. -/
theorem write_batch_one_bulk_call_witness :
    (readySink true).UseBatchFormat = true ∧
      (readySink true).db = some ⟨"logdb"⟩ ∧
      (memDriver.Collection ⟨"logdb"⟩ (readySink true).Collection (readyStore [])).1 =
        Res.ok ⟨"logdb", "log_data"⟩ ∧
      ∃ es : List Entry,
        createDocumentsCalls
            (calls (Write memDriver (readySink true) [cpuMetric 1, cpuMetric 2] (readyStore [])).trace) =
          [es] ∧
        createDocumentCalls
            (calls (Write memDriver (readySink true) [cpuMetric 1, cpuMetric 2] (readyStore [])).trace) =
          [] ∧
        es.length = [cpuMetric 1, cpuMetric 2].length ∧
        ∀ (i : Nat) (m : Metric), [cpuMetric 1, cpuMetric 2][i]? = some m →
          ∃ e, es[i]? = some e ∧ e.Name = m.Name ∧ e.Tags = m.Tags ∧ e.Fields = m.Fields ∧
            e.Time = m.Time ∧ e.Type_ = m.Type_ :=
  ⟨rfl, rfl, by decide,
    write_batch_one_bulk_call memDriver (readySink true) [cpuMetric 1, cpuMetric 2] (readyStore [])
      ⟨"logdb"⟩ ⟨"logdb", "log_data"⟩ rfl rfl (by decide)⟩

/-- C3 at a concrete input: three metrics written one by one to a ready store
whose second `CreateDocument` call fails; the third call is issued all the
same, on the store the failed call left behind. -/
theorem write_per_document_all_attempted_witness :
    (readySink false).UseBatchFormat = false ∧
      (readySink false).db = some ⟨"logdb"⟩ ∧
      (memDriver.Collection ⟨"logdb"⟩ (readySink false).Collection
          (readyStore [none, none, some boom, none])).1 = Res.ok ⟨"logdb", "log_data"⟩ ∧
      [cpuMetric 1, cpuMetric 2, cpuMetric 3] = [cpuMetric 1, cpuMetric 2] ++ cpuMetric 3 :: [] ∧
      perDocumentRun.trace.map Event.err = [none, none, some boom, none] ∧
      createDocumentCalls (calls perDocumentRun.trace) =
        [cpuMetric 1, cpuMetric 2, cpuMetric 3].map entryOf ∧
      createDocumentsCalls (calls perDocumentRun.trace) = [] ∧
      ∃ e, e.Name = (cpuMetric 3).Name ∧ e.Tags = (cpuMetric 3).Tags ∧
        e.Fields = (cpuMetric 3).Fields ∧ e.Time = (cpuMetric 3).Time ∧
        e.Type_ = (cpuMetric 3).Type_ ∧ e.aggregate = false ∧
        perDocumentRun.trace[[cpuMetric 1, cpuMetric 2].length + 1]? =
          some ⟨Call.CreateDocument ⟨"logdb", "log_data"⟩ e,
            (memDriver.CreateDocument ⟨"logdb", "log_data"⟩ e
              (Write memDriver (readySink false) [cpuMetric 1, cpuMetric 2]
                (readyStore [none, none, some boom, none])).store).1.err⟩ ∧
        (Write memDriver (readySink false) ([cpuMetric 1, cpuMetric 2] ++ [cpuMetric 3])
            (readyStore [none, none, some boom, none])).store =
          (memDriver.CreateDocument ⟨"logdb", "log_data"⟩ e
            (Write memDriver (readySink false) [cpuMetric 1, cpuMetric 2]
              (readyStore [none, none, some boom, none])).store).2 :=
  ⟨rfl, rfl, by decide, rfl, by decide,
    (write_per_document_all_attempted memDriver (readySink false)
      [cpuMetric 1, cpuMetric 2, cpuMetric 3] (readyStore [none, none, some boom, none])
      ⟨"logdb"⟩ ⟨"logdb", "log_data"⟩ rfl rfl (by decide)).2.1,
    (write_per_document_all_attempted memDriver (readySink false)
      [cpuMetric 1, cpuMetric 2, cpuMetric 3] (readyStore [none, none, some boom, none])
      ⟨"logdb"⟩ ⟨"logdb", "log_data"⟩ rfl rfl (by decide)).2.2.2.1,
    (write_per_document_all_attempted memDriver (readySink false)
      [cpuMetric 1, cpuMetric 2, cpuMetric 3] (readyStore [none, none, some boom, none])
      ⟨"logdb"⟩ ⟨"logdb", "log_data"⟩ rfl rfl (by decide)).2.2.2.2.2.2
      [cpuMetric 1, cpuMetric 2] [] (cpuMetric 3) rfl⟩

/-- C5 at a concrete input: one metric written in batch mode to a ready store
whose `CreateDocuments` call fails with `boom`. -/
theorem write_batch_error_iff_witness :
    (readySink true).UseBatchFormat = true ∧
      (readySink true).db = some ⟨"logdb"⟩ ∧
      (memDriver.Collection ⟨"logdb"⟩ (readySink true).Collection
          (readyStore [none, some boom])).1 = Res.ok ⟨"logdb", "log_data"⟩ ∧
      (Write memDriver (readySink true) [cpuMetric 1] (readyStore [none, some boom])).out =
        Outcome.returned (some boom) :=
  ⟨rfl, rfl, by decide,
    ((write_batch_error_iff memDriver (readySink true) [cpuMetric 1] (readyStore [none, some boom])
      ⟨"logdb"⟩ ⟨"logdb", "log_data"⟩ rfl rfl (by decide)).2.1 boom).mpr (by decide)⟩

/-- C4, as stated, fails: on the empty sequence `Write` looks the collection
up in both modes, issues a `CreateDocuments` call with the empty list in
batch mode, and returns the error of that call when it fails. -/
theorem empty_write_not_noop :
    calls emptyPerDocumentRun.trace = [Call.Collection ⟨"logdb"⟩ "log_data"] ∧
      calls emptyBatchRun.trace =
        [Call.Collection ⟨"logdb"⟩ "log_data", Call.CreateDocuments ⟨"logdb", "log_data"⟩ []] ∧
      emptyBatchFailedRun.out = Outcome.returned (some boom) := by
  decide

/-- C4, amended: on the empty sequence, with the database handle set, `Write`
issues one collection lookup; if it fails, `Write` returns its error and
issues nothing else; otherwise per-document mode issues nothing more and
returns nil, and batch mode issues one `CreateDocuments` call with the empty
list, no `CreateDocument` call, and returns what that call returned. -/
theorem write_empty {σ : Type} (d : Driver σ) (a : ArangoDb) (s : σ) (db : driver.Database)
    (hdb : a.db = some db) :
    (∀ e, (d.Collection db a.Collection s).1 = Res.error e →
        (Write d a [] s).trace = [⟨Call.Collection db a.Collection, some e⟩] ∧
          (Write d a [] s).out = Outcome.returned (some e)) ∧
      (∀ col, (d.Collection db a.Collection s).1 = Res.ok col → a.UseBatchFormat = false →
        (Write d a [] s).trace = [⟨Call.Collection db a.Collection, none⟩] ∧
          (Write d a [] s).out = Outcome.returned none) ∧
      (∀ col, (d.Collection db a.Collection s).1 = Res.ok col → a.UseBatchFormat = true →
        (Write d a [] s).trace =
            [⟨Call.Collection db a.Collection, none⟩,
             ⟨Call.CreateDocuments col [],
              (d.CreateDocuments col [] (d.Collection db a.Collection s).2).1.err⟩] ∧
          (Write d a [] s).out =
            Outcome.returned (d.CreateDocuments col [] (d.Collection db a.Collection s).2).1.err) := by
  refine ⟨?_, ?_, ?_⟩
  · intro e he
    exact Write_lookup_failed d a [] s db e hdb he
  · intro col hcol hmode
    exact Write_each_run d a [] s db col hdb hcol hmode
  · intro col hcol hmode
    exact Write_batch_run d a [] s db col hdb hcol hmode

/-- C4 amended, at a concrete input: the empty sequence written in batch mode
to a ready store. -/
theorem write_empty_witness :
    (readySink true).db = some ⟨"logdb"⟩ ∧
      emptyBatchRun.trace =
        [⟨Call.Collection ⟨"logdb"⟩ "log_data", none⟩,
         ⟨Call.CreateDocuments ⟨"logdb", "log_data"⟩ [], none⟩] ∧
      emptyBatchRun.out = Outcome.returned none :=
  ⟨rfl,
    (write_empty memDriver (readySink true) (readyStore []) ⟨"logdb"⟩ rfl).2.2
      ⟨"logdb", "log_data"⟩ (by decide) rfl⟩

/-- C10: for every metric sequence and in both modes, with the database
handle set, the first driver call of `Write` is the collection lookup on that
handle and it is the only lookup; if it fails, `Write` returns its error and
issues no other call. -/
theorem write_lookup_first {σ : Type} (d : Driver σ) (a : ArangoDb) (metrics : List Metric)
    (s : σ) (db : driver.Database) (hdb : a.db = some db) :
    (∃ rest, (Write d a metrics s).trace =
        ⟨Call.Collection db a.Collection, (d.Collection db a.Collection s).1.err⟩ :: rest) ∧
      collectionCalls (calls (Write d a metrics s).trace) = [(db, a.Collection)] ∧
      ∀ e, (d.Collection db a.Collection s).1 = Res.error e →
        (Write d a metrics s).out = Outcome.returned (some e) ∧
          (Write d a metrics s).trace = [⟨Call.Collection db a.Collection, some e⟩] ∧
          createDocumentCalls (calls (Write d a metrics s).trace) = [] ∧
          createDocumentsCalls (calls (Write d a metrics s).trace) = [] := by
  have hfail : ∀ e, (d.Collection db a.Collection s).1 = Res.error e →
      (Write d a metrics s).out = Outcome.returned (some e) ∧
        (Write d a metrics s).trace = [⟨Call.Collection db a.Collection, some e⟩] := by
    intro e he
    exact ⟨(Write_lookup_failed d a metrics s db e hdb he).2,
      (Write_lookup_failed d a metrics s db e hdb he).1⟩
  refine ⟨?_, ?_, ?_⟩
  · cases hr : (d.Collection db a.Collection s).1 with
    | error e => exact ⟨[], by rw [(hfail e hr).2]; rfl⟩
    | ok col =>
      cases hmode : a.UseBatchFormat with
      | true => exact ⟨_, (Write_batch_run d a metrics s db col hdb hr hmode).1⟩
      | false => exact ⟨_, (Write_each_run d a metrics s db col hdb hr hmode).1⟩
  · cases hr : (d.Collection db a.Collection s).1 with
    | error e => rw [(hfail e hr).2]; rfl
    | ok col =>
      cases hmode : a.UseBatchFormat with
      | true => rw [(Write_batch_run d a metrics s db col hdb hr hmode).1]; rfl
      | false =>
        rw [(Write_each_run d a metrics s db col hdb hr hmode).1]
        show collectionCalls (_ :: calls _) = _
        rw [writeEach_calls]
        show (db, a.Collection) ::
          collectionCalls (List.map ((fun e => Call.CreateDocument col e) ∘ entryOf) metrics) = _
        rw [← List.map_map, collectionCalls_map]
  · intro e he
    refine ⟨(hfail e he).1, (hfail e he).2, ?_, ?_⟩ <;> rw [(hfail e he).2] <;> rfl

/-- C10 at a concrete input: two metrics written in batch mode to an empty
store, where the collection lookup fails. -/
theorem write_lookup_first_witness :
    (readySink true).db = some ⟨"logdb"⟩ ∧
      collectionCalls
          (calls (Write memDriver (readySink true) [cpuMetric 1, cpuMetric 2] (emptyStore [])).trace) =
        [(⟨"logdb"⟩, (readySink true).Collection)] ∧
      (Write memDriver (readySink true) [cpuMetric 1, cpuMetric 2] (emptyStore [])).out =
        Outcome.returned (some ⟨"collection not found"⟩) :=
  ⟨rfl,
    (write_lookup_first memDriver (readySink true) [cpuMetric 1, cpuMetric 2] (emptyStore [])
      ⟨"logdb"⟩ rfl).2.1,
    ((write_lookup_first memDriver (readySink true) [cpuMetric 1, cpuMetric 2] (emptyStore [])
      ⟨"logdb"⟩ rfl).2.2 ⟨"collection not found"⟩ (by decide)).1⟩

/-! ## Runs of `Connect` -/

theorem connectCollection_cases {σ : Type} (d : Driver σ) (a : ArangoDb) (db : driver.Database)
    (s : σ) (trace : List Event) :
    (∃ e s1, d.CollectionExists db a.Collection s = (Res.error e, s1) ∧
        connectCollection d a db s trace =
          ⟨Outcome.returned (some e), a, s1,
            trace ++ [⟨Call.CollectionExists db a.Collection, some e⟩],
            ["Failed to check if collection exists: " ++ e.msg]⟩) ∨
      (∃ s1, d.CollectionExists db a.Collection s = (Res.ok true, s1) ∧
        connectCollection d a db s trace =
          ⟨Outcome.returned none, a, s1,
            trace ++ [⟨Call.CollectionExists db a.Collection, none⟩], []⟩) ∨
      (∃ s1 e s2, d.CollectionExists db a.Collection s = (Res.ok false, s1) ∧
        d.CreateCollection db a.Collection s1 = (Res.error e, s2) ∧
        connectCollection d a db s trace =
          ⟨Outcome.returned (some e), a, s2,
            trace ++ [⟨Call.CollectionExists db a.Collection, none⟩,
                      ⟨Call.CreateCollection db a.Collection, some e⟩],
            ["Failed to create collection: " ++ e.msg]⟩) ∨
      (∃ s1 col s2, d.CollectionExists db a.Collection s = (Res.ok false, s1) ∧
        d.CreateCollection db a.Collection s1 = (Res.ok col, s2) ∧
        connectCollection d a db s trace =
          ⟨Outcome.returned none, a, s2,
            trace ++ [⟨Call.CollectionExists db a.Collection, none⟩,
                      ⟨Call.CreateCollection db a.Collection, none⟩], []⟩) := by
  unfold connectCollection
  rcases h1 : d.CollectionExists db a.Collection s with ⟨r1, s1⟩
  cases r1 with
  | error e => exact Or.inl ⟨e, s1, rfl, rfl⟩
  | ok b =>
    cases b with
    | true => exact Or.inr (Or.inl ⟨s1, rfl, rfl⟩)
    | false =>
      rcases h2 : d.CreateCollection db a.Collection s1 with ⟨r2, s2⟩
      cases r2 with
      | error e => exact Or.inr (Or.inr (Or.inl ⟨s1, e, s2, rfl, h2, by simp only [h2]⟩))
      | ok col => exact Or.inr (Or.inr (Or.inr ⟨s1, col, s2, rfl, h2, by simp only [h2]⟩))

theorem connectDatabase_absent_cases {σ : Type} (d : Driver σ) (a : ArangoDb) (c : driver.Client)
    (s : σ) (trace : List Event) :
    (∃ e s1, d.CreateDatabase c a.Database s = (Res.error e, s1) ∧
        connectDatabase d a c false s trace =
          ⟨Outcome.returned (some e), a, s1, trace ++ [⟨Call.CreateDatabase a.Database, some e⟩],
            ["Could not connect to database: " ++ e.msg]⟩) ∨
      (∃ db s1, d.CreateDatabase c a.Database s = (Res.ok db, s1) ∧
        connectDatabase d a c false s trace =
          connectCollection d { a with db := some db } db s1
            (trace ++ [⟨Call.CreateDatabase a.Database, none⟩])) := by
  unfold connectDatabase
  rcases h1 : d.CreateDatabase c a.Database s with ⟨r1, s1⟩
  cases r1 with
  | error e => exact Or.inl ⟨e, s1, rfl, by simp [h1]⟩
  | ok db => exact Or.inr ⟨db, s1, rfl, by simp [h1]⟩

theorem connectDatabase_present_cases {σ : Type} (d : Driver σ) (a : ArangoDb) (c : driver.Client)
    (s : σ) (trace : List Event) :
    (∃ e s1, d.Database c a.Database s = (Res.error e, s1) ∧
        connectDatabase d a c true s trace =
          ⟨Outcome.returned (some e), a, s1, trace ++ [⟨Call.Database a.Database, some e⟩],
            ["Could not connect to database: " ++ e.msg]⟩) ∨
      (∃ db s1, d.Database c a.Database s = (Res.ok db, s1) ∧
        connectDatabase d a c true s trace =
          connectCollection d { a with db := some db } db s1
            (trace ++ [⟨Call.Database a.Database, none⟩])) := by
  unfold connectDatabase
  rcases h1 : d.Database c a.Database s with ⟨r1, s1⟩
  cases r1 with
  | error e => exact Or.inl ⟨e, s1, rfl, by simp [h1]⟩
  | ok db => exact Or.inr ⟨db, s1, rfl, by simp [h1]⟩

theorem Connect_cases {σ : Type} (d : Driver σ) (a : ArangoDb) (s : σ) :
    (∃ e s1, d.NewConnection [a.Url] s = (Res.error e, s1) ∧
        Connect d a s =
          ⟨Outcome.returned (some e), a, s1, [⟨Call.NewConnection [a.Url], some e⟩],
            ["Failed to create HTTP connection: " ++ e.msg]⟩) ∨
      (∃ conn s1 e s2, d.NewConnection [a.Url] s = (Res.ok conn, s1) ∧
        d.NewClient conn a.Username a.Password s1 = (Res.error e, s2) ∧
        Connect d a s =
          ⟨Outcome.panicked, a, s2,
            [⟨Call.NewConnection [a.Url], none⟩,
             ⟨Call.NewClient conn a.Username a.Password, some e⟩], []⟩) ∨
      (∃ conn s1 c s2 e s3, d.NewConnection [a.Url] s = (Res.ok conn, s1) ∧
        d.NewClient conn a.Username a.Password s1 = (Res.ok c, s2) ∧
        d.DatabaseExists c a.Database s2 = (Res.error e, s3) ∧
        Connect d a s =
          ⟨Outcome.returned (some e), a, s3,
            [⟨Call.NewConnection [a.Url], none⟩,
             ⟨Call.NewClient conn a.Username a.Password, none⟩,
             ⟨Call.DatabaseExists a.Database, some e⟩],
            ["Could not check if database '" ++ a.Database ++ "' exists: " ++ e.msg]⟩) ∨
      (∃ conn s1 c s2 found s3, d.NewConnection [a.Url] s = (Res.ok conn, s1) ∧
        d.NewClient conn a.Username a.Password s1 = (Res.ok c, s2) ∧
        d.DatabaseExists c a.Database s2 = (Res.ok found, s3) ∧
        Connect d a s =
          connectDatabase d a c found s3
            [⟨Call.NewConnection [a.Url], none⟩,
             ⟨Call.NewClient conn a.Username a.Password, none⟩,
             ⟨Call.DatabaseExists a.Database, none⟩]) := by
  unfold Connect
  rcases h1 : d.NewConnection [a.Url] s with ⟨r1, s1⟩
  cases r1 with
  | error e => exact Or.inl ⟨e, s1, rfl, rfl⟩
  | ok conn =>
    rcases h2 : d.NewClient conn a.Username a.Password s1 with ⟨r2, s2⟩
    cases r2 with
    | error e => exact Or.inr (Or.inl ⟨conn, s1, e, s2, rfl, h2, by simp only [h2]⟩)
    | ok c =>
      rcases h3 : d.DatabaseExists c a.Database s2 with ⟨r3, s3⟩
      cases r3 with
      | error e =>
        exact Or.inr (Or.inr (Or.inl ⟨conn, s1, c, s2, e, s3, rfl, h2, h3, by simp only [h2, h3]⟩))
      | ok found =>
        exact Or.inr (Or.inr (Or.inr ⟨conn, s1, c, s2, found, s3, rfl, h2, h3, by simp only [h2, h3]⟩))

theorem connectCollection_all_ok {σ : Type} (d : Driver σ) (a : ArangoDb) (db : driver.Database)
    (s : σ) (t : List Event)
    (hok : ∀ ev ∈ (connectCollection d a db s t).trace, ev.err = none) :
    (connectCollection d a db s t).out = Outcome.returned none ∧
      (connectCollection d a db s t).sink = a ∧
      ((d.CollectionExists db a.Collection s = (Res.ok true, (connectCollection d a db s t).store) ∧
          calls (connectCollection d a db s t).trace =
            calls t ++ [Call.CollectionExists db a.Collection]) ∨
        ∃ s1 col, d.CollectionExists db a.Collection s = (Res.ok false, s1) ∧
          d.CreateCollection db a.Collection s1 =
            (Res.ok col, (connectCollection d a db s t).store) ∧
          calls (connectCollection d a db s t).trace =
            calls t ++ [Call.CollectionExists db a.Collection,
              Call.CreateCollection db a.Collection]) := by
  rcases connectCollection_cases d a db s t with
    ⟨e1, s1, _, hC⟩ | ⟨s1, h1, hC⟩ | ⟨s1, e1, s2, _, _, hC⟩ | ⟨s1, col, s2, h1, h2, hC⟩
  · rw [hC] at hok
    have := hok ⟨Call.CollectionExists db a.Collection, some e1⟩ (by simp)
    simp at this
  · rw [hC]
    exact ⟨rfl, rfl, Or.inl ⟨h1, by simp [calls]⟩⟩
  · rw [hC] at hok
    have := hok ⟨Call.CreateCollection db a.Collection, some e1⟩ (by simp)
    simp at this
  · rw [hC]
    exact ⟨rfl, rfl, Or.inr ⟨s1, col, h1, h2, by simp [calls]⟩⟩

theorem Connect_all_ok {σ : Type} (d : Driver σ) (a : ArangoDb) (s : σ)
    (hok : ∀ ev ∈ (Connect d a s).trace, ev.err = none) :
    ∃ conn s1 c s2 found s3 db s4,
      d.NewConnection [a.Url] s = (Res.ok conn, s1) ∧
      d.NewClient conn a.Username a.Password s1 = (Res.ok c, s2) ∧
      d.DatabaseExists c a.Database s2 = (Res.ok found, s3) ∧
      (if found = false then d.CreateDatabase c a.Database s3 else d.Database c a.Database s3) =
        (Res.ok db, s4) ∧
      (Connect d a s).out = Outcome.returned none ∧
      (Connect d a s).sink = { a with db := some db } ∧
      ((d.CollectionExists db a.Collection s4 = (Res.ok true, (Connect d a s).store) ∧
          calls (Connect d a s).trace =
            [Call.NewConnection [a.Url], Call.NewClient conn a.Username a.Password,
              Call.DatabaseExists a.Database,
              (if found = false then Call.CreateDatabase a.Database else Call.Database a.Database),
              Call.CollectionExists db a.Collection]) ∨
        ∃ s5 col, d.CollectionExists db a.Collection s4 = (Res.ok false, s5) ∧
          d.CreateCollection db a.Collection s5 = (Res.ok col, (Connect d a s).store) ∧
          calls (Connect d a s).trace =
            [Call.NewConnection [a.Url], Call.NewClient conn a.Username a.Password,
              Call.DatabaseExists a.Database,
              (if found = false then Call.CreateDatabase a.Database else Call.Database a.Database),
              Call.CollectionExists db a.Collection, Call.CreateCollection db a.Collection]) := by
  rcases Connect_cases d a s with
    ⟨e1, s1, _, hC⟩ | ⟨conn, s1, e1, s2, _, _, hC⟩ | ⟨conn, s1, c, s2, e1, s3, _, _, _, hC⟩ |
      ⟨conn, s1, c, s2, found, s3, h1, h2, h3, hC⟩
  · rw [hC] at hok
    have := hok ⟨Call.NewConnection [a.Url], some e1⟩ (by simp)
    simp at this
  · rw [hC] at hok
    have := hok ⟨Call.NewClient conn a.Username a.Password, some e1⟩ (by simp)
    simp at this
  · rw [hC] at hok
    have := hok ⟨Call.DatabaseExists a.Database, some e1⟩ (by simp)
    simp at this
  · rw [hC] at hok ⊢
    cases found with
    | false =>
      rcases connectDatabase_absent_cases d a c s3 _ with ⟨e1, s4, _, hD⟩ | ⟨db, s4, h4, hD⟩
      · rw [hD] at hok
        have := hok ⟨Call.CreateDatabase a.Database, some e1⟩ (by simp)
        simp at this
      · rw [hD] at hok ⊢
        obtain ⟨ho, hs, hrest⟩ := connectCollection_all_ok d _ db s4 _ hok
        refine ⟨conn, s1, c, s2, false, s3, db, s4, h1, h2, h3, by simpa using h4, ho, hs, ?_⟩
        simpa [calls] using hrest
    | true =>
      rcases connectDatabase_present_cases d a c s3 _ with ⟨e1, s4, _, hD⟩ | ⟨db, s4, h4, hD⟩
      · rw [hD] at hok
        have := hok ⟨Call.Database a.Database, some e1⟩ (by simp)
        simp at this
      · rw [hD] at hok ⊢
        obtain ⟨ho, hs, hrest⟩ := connectCollection_all_ok d _ db s4 _ hok
        refine ⟨conn, s1, c, s2, true, s3, db, s4, h1, h2, h3, by simpa using h4, ho, hs, ?_⟩
        simpa [calls] using hrest

theorem MemStore.call_ok {α : Type} (s : MemStore) (body : MemStore → Res α × MemStore) (v : α)
    (s' : MemStore) (h : s.call body = (Res.ok v, s')) :
    ∃ s1 : MemStore, s1.dbs = s.dbs ∧ s1.cols = s.cols ∧ body s1 = (Res.ok v, s') := by
  unfold MemStore.call MemStore.next at h
  cases hf : s.faults with
  | nil =>
    rw [hf] at h
    exact ⟨s, rfl, rfl, h⟩
  | cons f rest =>
    rw [hf] at h
    cases f with
    | none => exact ⟨{ s with faults := rest }, rfl, rfl, h⟩
    | some e => simp at h

theorem mem_NewConnection_ok (eps : List String) (s s' : MemStore) (conn : driver.Connection)
    (h : memDriver.NewConnection eps s = (Res.ok conn, s')) :
    s'.dbs = s.dbs ∧ s'.cols = s.cols := by
  obtain ⟨s1, hd, hc, hb⟩ := MemStore.call_ok s _ conn s' h
  simp only [Prod.mk.injEq] at hb
  rw [← hb.2]
  exact ⟨hd, hc⟩

theorem mem_NewClient_ok (conn : driver.Connection) (u p : String) (s s' : MemStore)
    (c : driver.Client) (h : memDriver.NewClient conn u p s = (Res.ok c, s')) :
    s'.dbs = s.dbs ∧ s'.cols = s.cols := by
  obtain ⟨s1, hd, hc, hb⟩ := MemStore.call_ok s _ c s' h
  simp only [Prod.mk.injEq] at hb
  rw [← hb.2]
  exact ⟨hd, hc⟩

theorem mem_DatabaseExists_ok (c : driver.Client) (n : String) (s s' : MemStore) (found : Bool)
    (h : memDriver.DatabaseExists c n s = (Res.ok found, s')) :
    (found = true ↔ n ∈ s.dbs) ∧ s'.dbs = s.dbs ∧ s'.cols = s.cols := by
  obtain ⟨s1, hd, hc, hb⟩ := MemStore.call_ok s _ found s' h
  simp only [Prod.mk.injEq, Res.ok.injEq] at hb
  rw [← hb.2, ← hb.1, hd]
  exact ⟨by simp, rfl, hc⟩

theorem mem_CreateDatabase_ok (c : driver.Client) (n : String) (s s' : MemStore)
    (db : driver.Database) (h : memDriver.CreateDatabase c n s = (Res.ok db, s')) :
    db = ⟨n⟩ ∧ s'.dbs = s.dbs ++ [n] ∧ s'.cols = s.cols := by
  obtain ⟨s1, hd, hc, hb⟩ := MemStore.call_ok s _ db s' h
  by_cases hn : n ∈ s1.dbs
  · simp [hn] at hb
  · simp only [hn, if_false, Prod.mk.injEq, Res.ok.injEq] at hb
    rw [← hb.2, ← hb.1]
    exact ⟨rfl, by simp [hd], hc⟩

theorem mem_Database_ok (c : driver.Client) (n : String) (s s' : MemStore)
    (db : driver.Database) (h : memDriver.Database c n s = (Res.ok db, s')) :
    db = ⟨n⟩ ∧ s'.dbs = s.dbs ∧ s'.cols = s.cols := by
  obtain ⟨s1, hd, hc, hb⟩ := MemStore.call_ok s _ db s' h
  by_cases hn : n ∈ s1.dbs
  · simp only [hn, if_true, Prod.mk.injEq, Res.ok.injEq] at hb
    rw [← hb.2, ← hb.1]
    exact ⟨rfl, hd, hc⟩
  · simp [hn] at hb

theorem mem_CollectionExists_ok (db : driver.Database) (n : String) (s s' : MemStore)
    (found : Bool) (h : memDriver.CollectionExists db n s = (Res.ok found, s')) :
    (found = true ↔ db.name ∈ s.dbs ∧ (db.name, n) ∈ s.cols) ∧ s'.dbs = s.dbs ∧
      s'.cols = s.cols := by
  obtain ⟨s1, hd, hc, hb⟩ := MemStore.call_ok s _ found s' h
  by_cases hn : db.name ∈ s1.dbs
  · simp only [hn, if_true, Prod.mk.injEq, Res.ok.injEq] at hb
    rw [← hb.2, ← hb.1, ← hc, ← hd]
    exact ⟨by simp [hn], rfl, rfl⟩
  · simp only [hn, if_false, Prod.mk.injEq, Res.ok.injEq] at hb
    rw [← hb.2, ← hb.1, ← hd]
    exact ⟨by simp [hn], rfl, hc⟩

theorem mem_CreateCollection_ok (db : driver.Database) (n : String) (s s' : MemStore)
    (col : driver.Collection) (h : memDriver.CreateCollection db n s = (Res.ok col, s')) :
    s'.dbs = s.dbs ∧ s'.cols = s.cols ++ [(db.name, n)] := by
  obtain ⟨s1, hd, hc, hb⟩ := MemStore.call_ok s _ col s' h
  by_cases hn : db.name ∈ s1.dbs
  · by_cases hm : (db.name, n) ∈ s1.cols
    · simp [hn, hm] at hb
    · simp only [hn, hm, if_true, if_false, Prod.mk.injEq, Res.ok.injEq] at hb
      rw [← hb.2]
      exact ⟨hd, by simp [hc]⟩
  · simp [hn] at hb

theorem connectCollection_nil_all_ok {σ : Type} (d : Driver σ) (a : ArangoDb)
    (db : driver.Database) (s : σ) (t : List Event) (ht : ∀ ev ∈ t, ev.err = none)
    (hout : (connectCollection d a db s t).out = Outcome.returned none) :
    ∀ ev ∈ (connectCollection d a db s t).trace, ev.err = none := by
  rcases connectCollection_cases d a db s t with
    ⟨e1, s1, _, hC⟩ | ⟨s1, _, hC⟩ | ⟨s1, e1, s2, _, _, hC⟩ | ⟨s1, col, s2, _, _, hC⟩
  · rw [hC] at hout
    simp at hout
  · rw [hC]
    intro ev hev
    simp only [List.mem_append, List.mem_singleton] at hev
    rcases hev with hev | hev
    · exact ht ev hev
    · rw [hev]
  · rw [hC] at hout
    simp at hout
  · rw [hC]
    intro ev hev
    simp only [List.mem_append, List.mem_cons, List.mem_singleton, List.not_mem_nil,
      or_false] at hev
    rcases hev with hev | hev | hev
    · exact ht ev hev
    · rw [hev]
    · rw [hev]

theorem Connect_nil_all_ok {σ : Type} (d : Driver σ) (a : ArangoDb) (s : σ)
    (hout : (Connect d a s).out = Outcome.returned none) :
    ∀ ev ∈ (Connect d a s).trace, ev.err = none := by
  rcases Connect_cases d a s with
    ⟨e1, s1, _, hC⟩ | ⟨conn, s1, e1, s2, _, _, hC⟩ | ⟨conn, s1, c, s2, e1, s3, _, _, _, hC⟩ |
      ⟨conn, s1, c, s2, found, s3, _, _, _, hC⟩
  · rw [hC] at hout
    simp at hout
  · rw [hC] at hout
    simp at hout
  · rw [hC] at hout
    simp at hout
  · rw [hC] at hout ⊢
    cases found with
    | false =>
      rcases connectDatabase_absent_cases d a c s3 _ with ⟨e1, s4, _, hD⟩ | ⟨db, s4, _, hD⟩
      · rw [hD] at hout
        simp at hout
      · rw [hD] at hout ⊢
        refine connectCollection_nil_all_ok d _ db s4 _ ?_ hout
        intro ev hev
        simp only [List.cons_append, List.nil_append, List.mem_cons, List.mem_singleton,
          List.not_mem_nil, or_false] at hev
        rcases hev with hev | hev | hev | hev <;> rw [hev]
    | true =>
      rcases connectDatabase_present_cases d a c s3 _ with ⟨e1, s4, _, hD⟩ | ⟨db, s4, _, hD⟩
      · rw [hD] at hout
        simp at hout
      · rw [hD] at hout ⊢
        refine connectCollection_nil_all_ok d _ db s4 _ ?_ hout
        intro ev hev
        simp only [List.cons_append, List.nil_append, List.mem_cons, List.mem_singleton,
          List.not_mem_nil, or_false] at hev
        rcases hev with hev | hev | hev | hev <;> rw [hev]

theorem mem_Connect_all_ok (a : ArangoDb) (s : MemStore)
    (hok : ∀ ev ∈ (Connect memDriver a s).trace, ev.err = none) :
    (Connect memDriver a s).out = Outcome.returned none ∧
      (Connect memDriver a s).store.dbs =
        (if a.Database ∈ s.dbs then s.dbs else s.dbs ++ [a.Database]) ∧
      (Connect memDriver a s).store.cols =
        (if (a.Database, a.Collection) ∈ s.cols then s.cols
          else s.cols ++ [(a.Database, a.Collection)]) ∧
      createDatabaseCalls (calls (Connect memDriver a s).trace) =
        (if a.Database ∈ s.dbs then [] else [a.Database]) ∧
      databaseCalls (calls (Connect memDriver a s).trace) =
        (if a.Database ∈ s.dbs then [a.Database] else []) ∧
      createCollectionCalls (calls (Connect memDriver a s).trace) =
        (if (a.Database, a.Collection) ∈ s.cols then []
          else [(⟨a.Database⟩, a.Collection)]) := by
  obtain ⟨conn, s1, c, s2, found, s3, db, s4, h1, h2, h3, h4, hout, _, hrest⟩ :=
    Connect_all_ok memDriver a s hok
  obtain ⟨hd1, hc1⟩ := mem_NewConnection_ok _ _ _ _ h1
  obtain ⟨hd2, hc2⟩ := mem_NewClient_ok _ _ _ _ _ _ h2
  obtain ⟨hf, hd3, hc3⟩ := mem_DatabaseExists_ok _ _ _ _ _ h3
  rw [hd2, hd1] at hf
  have hdb4 : db = ⟨a.Database⟩ ∧ s4.cols = s.cols ∧
      s4.dbs = (if a.Database ∈ s.dbs then s.dbs else s.dbs ++ [a.Database]) := by
    cases found with
    | false =>
      have hn : a.Database ∉ s.dbs := fun hm => by simpa using hf.mpr hm
      simp only [if_true] at h4
      obtain ⟨e1, e2, e3⟩ := mem_CreateDatabase_ok _ _ _ _ _ h4
      refine ⟨e1, by rw [e3, hc3, hc2, hc1], ?_⟩
      rw [if_neg hn, e2, hd3, hd2, hd1]
    | true =>
      have hn : a.Database ∈ s.dbs := hf.mp rfl
      simp only [Bool.true_eq_false, if_false] at h4
      obtain ⟨e1, e2, e3⟩ := mem_Database_ok _ _ _ _ _ h4
      refine ⟨e1, by rw [e3, hc3, hc2, hc1], ?_⟩
      rw [if_pos hn, e2, hd3, hd2, hd1]
  obtain ⟨hdb, hc4, hd4⟩ := hdb4
  subst hdb
  have hfound : (found = false → a.Database ∉ s.dbs) ∧ (found = true → a.Database ∈ s.dbs) :=
    ⟨fun h hm => by rw [hf.mpr hm] at h; simp at h, fun h => hf.mp h⟩
  rcases hrest with ⟨h5, hcalls⟩ | ⟨s5, col, h5, h6, hcalls⟩
  · obtain ⟨hf5, hd5, hc5⟩ := mem_CollectionExists_ok _ _ _ _ _ h5
    have hm : (a.Database, a.Collection) ∈ s.cols := by
      have := (hf5.mp rfl).2
      rwa [hc4] at this
    refine ⟨hout, by rw [hd5, hd4], by rw [hc5, hc4, if_pos hm], ?_, ?_, ?_⟩
    · rw [hcalls]
      cases found with
      | false => simp [createDatabaseCalls, hfound.1 rfl]
      | true => simp [createDatabaseCalls, hfound.2 rfl]
    · rw [hcalls]
      cases found with
      | false => simp [databaseCalls, hfound.1 rfl]
      | true => simp [databaseCalls, hfound.2 rfl]
    · rw [hcalls, if_pos hm]
      cases found <;> simp [createCollectionCalls]
  · obtain ⟨hf5, hd5, hc5⟩ := mem_CollectionExists_ok _ _ _ _ _ h5
    obtain ⟨hd6, hc6⟩ := mem_CreateCollection_ok _ _ _ _ _ h6
    have hin : a.Database ∈ s4.dbs := by
      rw [hd4]
      by_cases h : a.Database ∈ s.dbs
      · rw [if_pos h]; exact h
      · rw [if_neg h]; simp
    have hm : (a.Database, a.Collection) ∉ s.cols := by
      intro hm
      rw [← hc4] at hm
      have := hf5.mpr ⟨hin, hm⟩
      simp at this
    refine ⟨hout, by rw [hd6, hd5, hd4], by rw [hc6, hc5, hc4, if_neg hm], ?_, ?_, ?_⟩
    · rw [hcalls]
      cases found with
      | false => simp [createDatabaseCalls, hfound.1 rfl]
      | true => simp [createDatabaseCalls, hfound.2 rfl]
    · rw [hcalls]
      cases found with
      | false => simp [databaseCalls, hfound.1 rfl]
      | true => simp [databaseCalls, hfound.2 rfl]
    · rw [hcalls, if_neg hm]
      cases found <;> simp [createCollectionCalls]

/-! ### `Connect` on a store with no injected failure -/

theorem MemStore.call_faultFree {α : Type} (s : MemStore) (body : MemStore → Res α × MemStore)
    (hf : ∀ f ∈ s.faults, f = none) :
    ∃ s1 : MemStore, s.call body = body s1 ∧ s1.dbs = s.dbs ∧ s1.cols = s.cols ∧
      ∀ f ∈ s1.faults, f = none := by
  unfold MemStore.call MemStore.next
  cases hfl : s.faults with
  | nil =>
    refine ⟨s, rfl, rfl, rfl, ?_⟩
    rw [hfl]
    intro f h
    simp at h
  | cons f rest =>
    have hnone : f = none := hf f (by rw [hfl]; simp)
    subst hnone
    refine ⟨{ s with faults := rest }, rfl, rfl, rfl, ?_⟩
    intro g hg
    exact hf g (by rw [hfl]; exact List.mem_cons_of_mem _ hg)

theorem mem_Connect_faultFree (a : ArangoDb) (s : MemStore)
    (hf : ∀ f ∈ s.faults, f = none) :
    (Connect memDriver a s).out = Outcome.returned none := by
  obtain ⟨s1, h1, d1, c1, f1⟩ :=
    MemStore.call_faultFree s (fun t => ((Res.ok ⟨[a.Url]⟩ : Res driver.Connection), t)) hf
  obtain ⟨s2, h2, d2, c2, f2⟩ :=
    MemStore.call_faultFree s1
      (fun t => ((Res.ok ⟨⟨[a.Url]⟩, a.Username, a.Password⟩ : Res driver.Client), t)) f1
  obtain ⟨s3, h3, d3, c3, f3⟩ :=
    MemStore.call_faultFree s2 (fun t => (Res.ok (decide (a.Database ∈ t.dbs)), t)) f2
  have e1 : memDriver.NewConnection [a.Url] s = (Res.ok ⟨[a.Url]⟩, s1) := h1
  have e2 : memDriver.NewClient ⟨[a.Url]⟩ a.Username a.Password s1 =
      (Res.ok ⟨⟨[a.Url]⟩, a.Username, a.Password⟩, s2) := h2
  have e3 : memDriver.DatabaseExists ⟨⟨[a.Url]⟩, a.Username, a.Password⟩ a.Database s2 =
      (Res.ok (decide (a.Database ∈ s3.dbs)), s3) := h3
  have hcol : ∀ (a' : ArangoDb) (t : MemStore) (tr : List Event),
      a'.Database ∈ t.dbs → (∀ f ∈ t.faults, f = none) →
      (connectCollection memDriver a' ⟨a'.Database⟩ t tr).out = Outcome.returned none := by
    intro a' t tr hin hft
    obtain ⟨t1, k1, dd1, cc1, ff1⟩ :=
      MemStore.call_faultFree t
        (fun u => if a'.Database ∈ u.dbs
          then (Res.ok (decide ((a'.Database, a'.Collection) ∈ u.cols)), u)
          else (Res.ok false, u)) hft
    have hin1 : a'.Database ∈ t1.dbs := by rw [dd1]; exact hin
    simp only [hin1, if_true] at k1
    have k1' : memDriver.CollectionExists ⟨a'.Database⟩ a'.Collection t =
        (Res.ok (decide ((a'.Database, a'.Collection) ∈ t1.cols)), t1) := k1
    by_cases hm : (a'.Database, a'.Collection) ∈ t1.cols
    · simp only [hm, decide_True] at k1'
      simp only [connectCollection, k1']
    · simp only [hm, decide_False] at k1'
      obtain ⟨t2, k2, dd2, cc2, _⟩ :=
        MemStore.call_faultFree t1
          (fun u => if a'.Database ∈ u.dbs then
              if (a'.Database, a'.Collection) ∈ u.cols
              then ((Res.error ⟨"duplicate collection name"⟩ : Res driver.Collection), u)
              else (Res.ok ⟨a'.Database, a'.Collection⟩,
                { u with cols := u.cols ++ [(a'.Database, a'.Collection)] })
            else (Res.error ⟨"database not found"⟩, u)) ff1
      have hin2 : a'.Database ∈ t2.dbs := by rw [dd2]; exact hin1
      have hm2 : (a'.Database, a'.Collection) ∉ t2.cols := by rw [cc2]; exact hm
      simp only [hin2, hm2, if_true, if_false] at k2
      have k2' : memDriver.CreateCollection ⟨a'.Database⟩ a'.Collection t1 =
          (Res.ok ⟨a'.Database, a'.Collection⟩,
            { t2 with cols := t2.cols ++ [(a'.Database, a'.Collection)] }) := k2
      simp only [connectCollection, k1', k2']
  by_cases hin : a.Database ∈ s3.dbs
  · simp only [hin, decide_True] at e3
    obtain ⟨s4, h4, d4, _, f4⟩ :=
      MemStore.call_faultFree s3
        (fun t => if a.Database ∈ t.dbs then ((Res.ok ⟨a.Database⟩ : Res driver.Database), t)
          else (Res.error ⟨"database not found"⟩, t)) f3
    have hin4 : a.Database ∈ s4.dbs := by rw [d4]; exact hin
    simp only [hin4, if_true] at h4
    have e4 : memDriver.Database ⟨⟨[a.Url]⟩, a.Username, a.Password⟩ a.Database s3 =
        (Res.ok ⟨a.Database⟩, s4) := h4
    simp only [Connect, e1, e2, e3, connectDatabase, e4, Bool.true_eq_false, if_false]
    exact hcol { a with db := some ⟨a.Database⟩ } s4 _ hin4 f4
  · simp only [hin, decide_False] at e3
    obtain ⟨s4, h4, d4, _, f4⟩ :=
      MemStore.call_faultFree s3
        (fun t => if a.Database ∈ t.dbs
          then ((Res.error ⟨"duplicate database name"⟩ : Res driver.Database), t)
          else (Res.ok ⟨a.Database⟩, { t with dbs := t.dbs ++ [a.Database] })) f3
    have hin4 : a.Database ∉ s4.dbs := by rw [d4]; exact hin
    simp only [hin4, if_false] at h4
    have e4 : memDriver.CreateDatabase ⟨⟨[a.Url]⟩, a.Username, a.Password⟩ a.Database s3 =
        (Res.ok ⟨a.Database⟩, { s4 with dbs := s4.dbs ++ [a.Database] }) := h4
    simp only [Connect, e1, e2, e3, connectDatabase, e4, if_true]
    exact hcol { a with db := some ⟨a.Database⟩ } { s4 with dbs := s4.dbs ++ [a.Database] } _
      (by simp) f4

/-! ## `Connect`: the claims -/

/-- C6, as stated, fails: `Connect` on a sink with no database handle, against
a store whose collection-existence query fails, returns the error and leaves
the database handle set. -/
theorem connect_error_keeps_handle :
    (sampleSink true).db = none ∧
      collectionQueryFailedRun.out = Outcome.returned (some boom) ∧
      collectionQueryFailedRun.sink.db = some ⟨"logdb"⟩ ∧
      collectionQueryFailedRun.sink.db ≠ none := by
  decide

/-- C6, amended: when `Connect`, called on a sink whose database handle is
unset, returns a non-nil error, the error is that of the last driver call;
if that call is the HTTP connection, the database-existence query, or the
creation or opening of the database, the handle is still unset; if it is the
collection-existence query or the creation of the collection, the handle holds
the database the call was issued on. -/
theorem connect_error_handle {σ : Type} (d : Driver σ) (a : ArangoDb) (s : σ) (e : Err)
    (hdb : a.db = none) (hout : (Connect d a s).out = Outcome.returned (some e)) :
    ∃ c, lastEvent (Connect d a s).trace = some ⟨c, some e⟩ ∧
      (((c = Call.NewConnection [a.Url] ∨ c = Call.DatabaseExists a.Database ∨
            c = Call.CreateDatabase a.Database ∨ c = Call.Database a.Database) ∧
          (Connect d a s).sink.db = none) ∨
        ∃ db, (c = Call.CollectionExists db a.Collection ∨
            c = Call.CreateCollection db a.Collection) ∧
          (Connect d a s).sink.db = some db) := by
  have hcol : ∀ (db : driver.Database) (s' : σ) (t : List Event),
      (connectCollection d { a with db := some db } db s' t).out = Outcome.returned (some e) →
      ∃ c, lastEvent (connectCollection d { a with db := some db } db s' t).trace =
          some ⟨c, some e⟩ ∧
        ∃ db', (c = Call.CollectionExists db' a.Collection ∨
            c = Call.CreateCollection db' a.Collection) ∧
          (connectCollection d { a with db := some db } db s' t).sink.db = some db' := by
    intro db s' t h
    rcases connectCollection_cases d { a with db := some db } db s' t with
      ⟨e1, s1, _, hC⟩ | ⟨s1, _, hC⟩ | ⟨s1, e1, s2, _, _, hC⟩ | ⟨s1, col, s2, _, _, hC⟩
    · rw [hC] at h ⊢
      simp only [Outcome.returned.injEq, Option.some.injEq] at h
      subst h
      exact ⟨_, by simp [lastEvent], db, Or.inl rfl, rfl⟩
    · rw [hC] at h
      simp at h
    · rw [hC] at h ⊢
      simp only [Outcome.returned.injEq, Option.some.injEq] at h
      subst h
      exact ⟨_, by simp [lastEvent], db, Or.inr rfl, rfl⟩
    · rw [hC] at h
      simp at h
  rcases Connect_cases d a s with
    ⟨e1, s1, _, hC⟩ | ⟨conn, s1, e1, s2, _, _, hC⟩ | ⟨conn, s1, c, s2, e1, s3, _, _, _, hC⟩ |
      ⟨conn, s1, c, s2, found, s3, _, _, _, hC⟩
  · rw [hC] at hout ⊢
    simp only [Outcome.returned.injEq, Option.some.injEq] at hout
    subst hout
    exact ⟨_, by simp [lastEvent], Or.inl ⟨Or.inl rfl, hdb⟩⟩
  · rw [hC] at hout
    simp at hout
  · rw [hC] at hout ⊢
    simp only [Outcome.returned.injEq, Option.some.injEq] at hout
    subst hout
    exact ⟨_, by simp [lastEvent], Or.inl ⟨Or.inr (Or.inl rfl), hdb⟩⟩
  · rw [hC] at hout ⊢
    cases found with
    | false =>
      rcases connectDatabase_absent_cases d a c s3 _ with ⟨e1, s4, _, hD⟩ | ⟨db, s4, _, hD⟩
      · rw [hD] at hout ⊢
        simp only [Outcome.returned.injEq, Option.some.injEq] at hout
        subst hout
        exact ⟨_, by simp [lastEvent], Or.inl ⟨Or.inr (Or.inr (Or.inl rfl)), hdb⟩⟩
      · rw [hD] at hout ⊢
        obtain ⟨c', h1, h2⟩ := hcol db s4 _ hout
        exact ⟨c', h1, Or.inr h2⟩
    | true =>
      rcases connectDatabase_present_cases d a c s3 _ with ⟨e1, s4, _, hD⟩ | ⟨db, s4, _, hD⟩
      · rw [hD] at hout ⊢
        simp only [Outcome.returned.injEq, Option.some.injEq] at hout
        subst hout
        exact ⟨_, by simp [lastEvent], Or.inl ⟨Or.inr (Or.inr (Or.inr rfl)), hdb⟩⟩
      · rw [hD] at hout ⊢
        obtain ⟨c', h1, h2⟩ := hcol db s4 _ hout
        exact ⟨c', h1, Or.inr h2⟩

/-- C6 amended, at a concrete input: the collection-existence query fails. -/
theorem connect_error_handle_witness :
    (sampleSink true).db = none ∧
      collectionQueryFailedRun.out = Outcome.returned (some boom) ∧
      ∃ c, lastEvent collectionQueryFailedRun.trace = some ⟨c, some boom⟩ ∧
        (((c = Call.NewConnection [(sampleSink true).Url] ∨
              c = Call.DatabaseExists (sampleSink true).Database ∨
              c = Call.CreateDatabase (sampleSink true).Database ∨
              c = Call.Database (sampleSink true).Database) ∧
            collectionQueryFailedRun.sink.db = none) ∨
          ∃ db, (c = Call.CollectionExists db (sampleSink true).Collection ∨
              c = Call.CreateCollection db (sampleSink true).Collection) ∧
            collectionQueryFailedRun.sink.db = some db) :=
  ⟨rfl, by decide,
    connect_error_handle memDriver (sampleSink true)
      (readyStore [none, none, none, none, some boom]) boom rfl (by decide)⟩

/-- C7, as stated, fails: when `NewClient` fails, `Connect` issues no further
driver call and does not return the error; the call through the nil client
panics. -/
theorem connect_client_error_not_returned :
    calls clientFailedRun.trace =
        [Call.NewConnection ["http://192.168.1.100:8529"],
         Call.NewClient ⟨["http://192.168.1.100:8529"]⟩ "user" "password"] ∧
      clientFailedRun.trace.map Event.err = [none, some boom] ∧
      clientFailedRun.out = Outcome.panicked ∧
      clientFailedRun.out ≠ Outcome.returned (some boom) := by
  decide

/-- C7, amended: for every driver call `Connect` issued, if `Connect` returns
nil the call succeeded; and if the call failed and is not the construction of
the driver client (so it is the HTTP connection, the database-existence query,
the creation or opening of the database, the collection-existence query or the
creation of the collection), `Connect` returns that call's error and the call
is the last one issued. -/
theorem connect_step_error_returned {σ : Type} (d : Driver σ) (a : ArangoDb) (s : σ)
    (ev : Event) (hev : ev ∈ (Connect d a s).trace) :
    ((Connect d a s).out = Outcome.returned none → ev.err = none) ∧
      ∀ e, ev.err = some e → ev.call.isNewClient = false →
        (Connect d a s).out = Outcome.returned (some e) ∧
          lastEvent (Connect d a s).trace = some ev := by
  refine ⟨fun hout => Connect_nil_all_ok d a s hout ev hev, ?_⟩
  intro e herr hstep
  have hcol : ∀ (a' : ArangoDb) (db : driver.Database) (s' : σ) (t : List Event),
      (∀ x ∈ t, x.err = none) → ev ∈ (connectCollection d a' db s' t).trace →
      (connectCollection d a' db s' t).out = Outcome.returned (some e) ∧
        lastEvent (connectCollection d a' db s' t).trace = some ev := by
    intro a' db s' t ht h
    rcases connectCollection_cases d a' db s' t with
      ⟨e1, s1, _, hC⟩ | ⟨s1, _, hC⟩ | ⟨s1, e1, s2, _, _, hC⟩ | ⟨s1, col, s2, _, _, hC⟩
    · rw [hC] at h ⊢
      simp only [List.mem_append, List.mem_singleton] at h
      rcases h with h | h
      · rw [ht ev h] at herr
        simp at herr
      · subst h
        simp only [Option.some.injEq] at herr
        subst herr
        exact ⟨rfl, by simp [lastEvent]⟩
    · rw [hC] at h
      simp only [List.mem_append, List.mem_singleton] at h
      rcases h with h | h
      · rw [ht ev h] at herr
        simp at herr
      · subst h
        simp at herr
    · rw [hC] at h ⊢
      simp only [List.mem_append, List.mem_cons, List.mem_singleton, List.not_mem_nil,
        or_false] at h
      rcases h with h | h | h
      · rw [ht ev h] at herr
        simp at herr
      · subst h
        simp at herr
      · subst h
        simp only [Option.some.injEq] at herr
        subst herr
        exact ⟨rfl, by simp [lastEvent]⟩
    · rw [hC] at h
      simp only [List.mem_append, List.mem_cons, List.mem_singleton, List.not_mem_nil,
        or_false] at h
      rcases h with h | h | h
      · rw [ht ev h] at herr
        simp at herr
      · subst h
        simp at herr
      · subst h
        simp at herr
  rcases Connect_cases d a s with
    ⟨e1, s1, _, hC⟩ | ⟨conn, s1, e1, s2, _, _, hC⟩ | ⟨conn, s1, c, s2, e1, s3, _, _, _, hC⟩ |
      ⟨conn, s1, c, s2, found, s3, _, _, _, hC⟩
  · rw [hC] at hev ⊢
    simp only [List.mem_singleton] at hev
    subst hev
    simp only [Option.some.injEq] at herr
    subst herr
    exact ⟨rfl, by simp [lastEvent]⟩
  · rw [hC] at hev
    simp only [List.mem_cons, List.mem_singleton, List.not_mem_nil, or_false] at hev
    rcases hev with h | h
    · subst h
      simp at herr
    · subst h
      simp [Call.isNewClient] at hstep
  · rw [hC] at hev ⊢
    simp only [List.mem_cons, List.mem_singleton, List.not_mem_nil, or_false] at hev
    rcases hev with h | h | h
    · subst h
      simp at herr
    · subst h
      simp at herr
    · subst h
      simp only [Option.some.injEq] at herr
      subst herr
      exact ⟨rfl, by simp [lastEvent]⟩
  · rw [hC] at hev ⊢
    have hpre : ∀ x ∈ [(⟨Call.NewConnection [a.Url], none⟩ : Event),
        ⟨Call.NewClient conn a.Username a.Password, none⟩,
        ⟨Call.DatabaseExists a.Database, none⟩], x.err = none := by
      intro x hx
      simp only [List.mem_cons, List.mem_singleton, List.not_mem_nil, or_false] at hx
      rcases hx with hx | hx | hx <;> rw [hx]
    cases found with
    | false =>
      rcases connectDatabase_absent_cases d a c s3 _ with ⟨e1, s4, _, hD⟩ | ⟨db, s4, _, hD⟩
      · rw [hD] at hev ⊢
        simp only [List.mem_append, List.mem_singleton] at hev
        rcases hev with h | h
        · rw [hpre ev h] at herr
          simp at herr
        · subst h
          simp only [Option.some.injEq] at herr
          subst herr
          exact ⟨rfl, by simp [lastEvent]⟩
      · rw [hD] at hev ⊢
        refine hcol _ db s4 _ ?_ hev
        intro x hx
        simp only [List.mem_append, List.mem_singleton] at hx
        rcases hx with hx | hx
        · exact hpre x hx
        · rw [hx]
    | true =>
      rcases connectDatabase_present_cases d a c s3 _ with ⟨e1, s4, _, hD⟩ | ⟨db, s4, _, hD⟩
      · rw [hD] at hev ⊢
        simp only [List.mem_append, List.mem_singleton] at hev
        rcases hev with h | h
        · rw [hpre ev h] at herr
          simp at herr
        · subst h
          simp only [Option.some.injEq] at herr
          subst herr
          exact ⟨rfl, by simp [lastEvent]⟩
      · rw [hD] at hev ⊢
        refine hcol _ db s4 _ ?_ hev
        intro x hx
        simp only [List.mem_append, List.mem_singleton] at hx
        rcases hx with hx | hx
        · exact hpre x hx
        · rw [hx]

/-- C7 amended, at a concrete input: the collection-existence query, the fifth
call of `Connect`, fails with `boom`, and `Connect` returns `boom`. -/
theorem connect_step_error_returned_witness :
    (⟨Call.CollectionExists ⟨"logdb"⟩ "log_data", some boom⟩ : Event) ∈
        collectionQueryFailedRun.trace ∧
      collectionQueryFailedRun.out = Outcome.returned (some boom) ∧
      lastEvent collectionQueryFailedRun.trace =
        some ⟨Call.CollectionExists ⟨"logdb"⟩ "log_data", some boom⟩ :=
  ⟨by decide,
    (connect_step_error_returned memDriver (sampleSink true)
      (readyStore [none, none, none, none, some boom])
      ⟨Call.CollectionExists ⟨"logdb"⟩ "log_data", some boom⟩ (by decide)).2 boom rfl rfl⟩

/-- C8: on the in-memory store, when the configured database and collection
exist in the store, or the store is the one a `Connect` that returned nil left
behind, and the store injects no failure (every query it receives succeeds),
`Connect` returns nil, every call it issues succeeds, it opens the database,
issues no `CreateDatabase` and no `CreateCollection` call, and leaves the
databases and the collections of the store as they were. -/
theorem connect_idempotent (a : ArangoDb) (s : MemStore)
    (hpresent : (a.Database ∈ s.dbs ∧ (a.Database, a.Collection) ∈ s.cols) ∨
      ∃ a0 s0, (Connect memDriver a0 s0).out = Outcome.returned none ∧
        (Connect memDriver a0 s0).sink = a ∧ (Connect memDriver a0 s0).store = s)
    (hfaults : ∀ f ∈ s.faults, f = none) :
    (Connect memDriver a s).out = Outcome.returned none ∧
      (∀ ev ∈ (Connect memDriver a s).trace, ev.err = none) ∧
      createDatabaseCalls (calls (Connect memDriver a s).trace) = [] ∧
      databaseCalls (calls (Connect memDriver a s).trace) = [a.Database] ∧
      createCollectionCalls (calls (Connect memDriver a s).trace) = [] ∧
      (Connect memDriver a s).store.dbs = s.dbs ∧
      (Connect memDriver a s).store.cols = s.cols := by
  have hex : a.Database ∈ s.dbs ∧ (a.Database, a.Collection) ∈ s.cols := by
    rcases hpresent with h | ⟨a0, s0, hout0, hsink, hstore⟩
    · exact h
    · have hok0 := Connect_nil_all_ok memDriver a0 s0 hout0
      obtain ⟨_, _, _, _, _, _, db, _, _, _, _, _, _, hs, _⟩ := Connect_all_ok memDriver a0 s0 hok0
      obtain ⟨_, hd, hc, _⟩ := mem_Connect_all_ok a0 s0 hok0
      have hD : a.Database = a0.Database := by rw [← hsink, hs]
      have hC : a.Collection = a0.Collection := by rw [← hsink, hs]
      rw [← hstore, hD, hC, hd, hc]
      constructor
      · by_cases h : a0.Database ∈ s0.dbs
        · rw [if_pos h]; exact h
        · rw [if_neg h]; simp
      · by_cases h : (a0.Database, a0.Collection) ∈ s0.cols
        · rw [if_pos h]; exact h
        · rw [if_neg h]; simp
  have hok := Connect_nil_all_ok memDriver a s (mem_Connect_faultFree a s hfaults)
  obtain ⟨hout, hd, hc, hcd, hod, hcc⟩ := mem_Connect_all_ok a s hok
  rw [if_pos hex.1] at hd hcd hod
  rw [if_pos hex.2] at hc hcc
  exact ⟨hout, hok, hcd, hod, hcc, hd, hc⟩

/-- C8 at a concrete input: a second `Connect`, against the store the first
one left behind after creating the database and the collection. -/
theorem connect_idempotent_witness :
    ((firstConnectRun.sink.Database ∈ firstConnectRun.store.dbs ∧
          (firstConnectRun.sink.Database, firstConnectRun.sink.Collection) ∈
            firstConnectRun.store.cols) ∨
        ∃ a0 s0, (Connect memDriver a0 s0).out = Outcome.returned none ∧
          (Connect memDriver a0 s0).sink = firstConnectRun.sink ∧
          (Connect memDriver a0 s0).store = firstConnectRun.store) ∧
      (∀ f ∈ firstConnectRun.store.faults, f = none) ∧
      (Connect memDriver firstConnectRun.sink firstConnectRun.store).out =
        Outcome.returned none ∧
      (∀ ev ∈ (Connect memDriver firstConnectRun.sink firstConnectRun.store).trace,
        ev.err = none) ∧
      createDatabaseCalls
          (calls (Connect memDriver firstConnectRun.sink firstConnectRun.store).trace) = [] ∧
      databaseCalls
          (calls (Connect memDriver firstConnectRun.sink firstConnectRun.store).trace) =
        [firstConnectRun.sink.Database] ∧
      createCollectionCalls
          (calls (Connect memDriver firstConnectRun.sink firstConnectRun.store).trace) = [] ∧
      (Connect memDriver firstConnectRun.sink firstConnectRun.store).store.dbs =
        firstConnectRun.store.dbs ∧
      (Connect memDriver firstConnectRun.sink firstConnectRun.store).store.cols =
        firstConnectRun.store.cols :=
  ⟨Or.inr ⟨sampleSink true, emptyStore [], by decide, rfl, rfl⟩, by decide,
    connect_idempotent firstConnectRun.sink firstConnectRun.store
      (Or.inr ⟨sampleSink true, emptyStore [], by decide, rfl, rfl⟩) (by decide)⟩

/-- C9: on the in-memory store, when every driver call of `Connect` succeeds:
if the configured database does not exist, `Connect` issues exactly one
`CreateDatabase` call, with the configured name, and no open-database call,
and the database exists afterwards; if the configured collection does not
exist, `Connect` issues exactly one `CreateCollection` call, with the
configured name on the configured database, and the collection exists
afterwards; in every case `Connect` returns nil and both exist afterwards. -/
theorem connect_creates_missing (a : ArangoDb) (s : MemStore)
    (hok : ∀ ev ∈ (Connect memDriver a s).trace, ev.err = none) :
    (a.Database ∉ s.dbs →
        createDatabaseCalls (calls (Connect memDriver a s).trace) = [a.Database] ∧
          databaseCalls (calls (Connect memDriver a s).trace) = [] ∧
          a.Database ∈ (Connect memDriver a s).store.dbs) ∧
      ((a.Database, a.Collection) ∉ s.cols →
        createCollectionCalls (calls (Connect memDriver a s).trace) =
            [(⟨a.Database⟩, a.Collection)] ∧
          (a.Database, a.Collection) ∈ (Connect memDriver a s).store.cols) ∧
      (Connect memDriver a s).out = Outcome.returned none ∧
      a.Database ∈ (Connect memDriver a s).store.dbs ∧
      (a.Database, a.Collection) ∈ (Connect memDriver a s).store.cols := by
  obtain ⟨hout, hd, hc, hcd, hod, hcc⟩ := mem_Connect_all_ok a s hok
  have hdb : a.Database ∈ (Connect memDriver a s).store.dbs := by
    rw [hd]
    by_cases h : a.Database ∈ s.dbs
    · rw [if_pos h]; exact h
    · rw [if_neg h]; simp
  have hcol : (a.Database, a.Collection) ∈ (Connect memDriver a s).store.cols := by
    rw [hc]
    by_cases h : (a.Database, a.Collection) ∈ s.cols
    · rw [if_pos h]; exact h
    · rw [if_neg h]; simp
  refine ⟨?_, ?_, hout, hdb, hcol⟩
  · intro h
    rw [if_neg h] at hcd hod
    exact ⟨hcd, hod, hdb⟩
  · intro h
    rw [if_neg h] at hcc
    exact ⟨hcc, hcol⟩

/-- C9 at a concrete input: `Connect` against an empty store, every call
succeeding. -/
theorem connect_creates_missing_witness :
    (∀ ev ∈ firstConnectRun.trace, ev.err = none) ∧
      (sampleSink true).Database ∉ (emptyStore []).dbs ∧
      ((sampleSink true).Database, (sampleSink true).Collection) ∉ (emptyStore []).cols ∧
      createDatabaseCalls (calls firstConnectRun.trace) = [(sampleSink true).Database] ∧
      databaseCalls (calls firstConnectRun.trace) = [] ∧
      createCollectionCalls (calls firstConnectRun.trace) =
        [(⟨(sampleSink true).Database⟩, (sampleSink true).Collection)] ∧
      firstConnectRun.out = Outcome.returned none ∧
      (sampleSink true).Database ∈ firstConnectRun.store.dbs ∧
      ((sampleSink true).Database, (sampleSink true).Collection) ∈ firstConnectRun.store.cols :=
  ⟨by decide, by decide, by decide,
    ((connect_creates_missing (sampleSink true) (emptyStore []) (by decide)).1 (by decide)).1,
    ((connect_creates_missing (sampleSink true) (emptyStore []) (by decide)).1 (by decide)).2.1,
    ((connect_creates_missing (sampleSink true) (emptyStore []) (by decide)).2.1 (by decide)).1,
    (connect_creates_missing (sampleSink true) (emptyStore []) (by decide)).2.2⟩

end ArangoOutput
